import Mathlib

/-! Chrono custom multicore collision system: `ChCollisionSystemChrono`

A shallow embedding of `src/chrono/collision/ChCollisionSystemChrono.cpp`.

Conventions of the embedding
* `custom_vector<T>` / `std::vector<T>` is `List T`; `size()` is `List.length`, and the
  `int` casts of sizes are taken to be exact (sizes stay below `2^31`).
* `custom_vector<char>` flag arrays are lists of integers; a flag is set when it is not `0`,
  and storing a `bool` stores `1` or `0`.
* The floating-point type `real` is an abstract type `R` with the operations the file uses
  (`<=`, `+`, the conversions from and to `int`), see `RealArith`; the `double` components of
  `ChVector<>` and `ChQuaternion<>` have the same type.
* An element access `v[i]` outside `0 .. size-1` has no defined behaviour in the source; the
  functions that index return `Option` and give `none` there.
* The `#pragma omp parallel for` loops write disjoint slots, or the same constant to a shared
  slot; they are embedded as the sequential loop over `0 .. n-1`.
* Classes whose code is not in this file (`ChAABBGenerator`, `ChBroadphase`, `ChNarrowphase`)
  are the fields of `Stages`: functions of the stage object and the shared database.
* Counters whose declarations are in other files (`num_rigid_shapes`, `num_rigid_contacts`,
  `num_rigid_fluid_contacts`, `num_rigid_bodies`, `num_fluid_bodies`) are natural numbers; the
  conversions that this file spells out (`uint num_contacts`, `(signed)num_contacts`, the
  `int(...)` of a packed key half) are embedded with their 32-bit wrap-around.
* Timers are not part of the state.
-/

namespace ChCollisionSystemChrono

/-! ## Numeric and vector types -/

/-- Operations of the source's floating-point type `real` that the collision system uses. -/
class RealArith (R : Type) where
  /-- The comparison `a <= b`. -/
  le : R → R → Bool
  /-- The sum `a + b`. -/
  add : R → R → R
  /-- The implicit conversion `int → real`. -/
  ofInt : Int → R
  /-- The cast `(int) a`. -/
  toInt : R → Int

/-- Integers as a carrier for `real`, used to evaluate the embedding on concrete inputs. -/
instance : RealArith Int where
  le a b := decide (a ≤ b)
  add a b := a + b
  ofInt z := z
  toInt a := a

structure real2 (R : Type) where
  x : R
  y : R
deriving DecidableEq

structure real3 (R : Type) where
  x : R
  y : R
  z : R
deriving DecidableEq

structure real4 (R : Type) where
  x : R
  y : R
  z : R
  w : R
deriving DecidableEq

/-- Built as `quaternion(e0, e1, e2, e3)`. -/
structure quaternion (R : Type) where
  w : R
  x : R
  y : R
  z : R
deriving DecidableEq

structure short2 where
  x : Int
  y : Int
deriving DecidableEq

structure vec2 where
  x : Int
  y : Int
deriving DecidableEq

structure vec3 where
  x : Int
  y : Int
  z : Int
deriving DecidableEq

/-- The constructor `real4(real3 v, real w)`. -/
def real4.ofReal3 {R : Type} (v : real3 R) (w : R) : real4 R := ⟨v.x, v.y, v.z, w⟩

/-- The helper `S2(x, y)`. -/
def S2 (x y : Int) : short2 := ⟨x, y⟩

/-- The helper `I2(x, y)`. -/
def I2 (x y : Int) : vec2 := ⟨x, y⟩

/-! ## External body and collision-model interface -/

/-- The shape kinds of `ChCollisionShape::Type`; `OTHER` stands for every enumerator that the
switch in `Add` sends to its `default:` branch. -/
inductive ShapeType where
  | SPHERE | ELLIPSOID | BOX | CYLINDER | CYLSHELL | CONE | CAPSULE
  | ROUNDEDBOX | ROUNDEDCYL | ROUNDEDCONE | CONVEX | TRIANGLE
  | OTHER (tag : Nat)
deriving DecidableEq

/-- The fields `A`, `B`, `C`, `R` and the type of a `ChCollisionShapeChrono`. -/
structure ChCollisionShapeChrono (R : Type) where
  type : ShapeType
  A : real3 R
  B : real3 R
  C : real3 R
  R : quaternion R
deriving DecidableEq

/-- The body position type `ChVector<>`, with components `x()`, `y()`, `z()`. -/
structure ChVector (R : Type) where
  x : R
  y : R
  z : R
deriving DecidableEq

/-- The body orientation type `ChQuaternion<>`, with components `e0()` .. `e3()`. -/
structure ChQuaternion (R : Type) where
  e0 : R
  e1 : R
  e2 : R
  e3 : R
deriving DecidableEq

/-- What the collision system reads from a body: `GetId`, `GetPos`, `GetRot`, `IsActive`,
`GetCollide`. -/
structure ChBody (R : Type) where
  id : Int
  pos : ChVector R
  rot : ChQuaternion R
  active : Bool
  collide : Bool
deriving DecidableEq

/-- What `Add` reads from a `ChCollisionModelChrono`: its body (also its physics item), the
family group and mask, the local convex point list and the shape list. -/
structure ChCollisionModelChrono (R : Type) where
  body : ChBody R
  family_group : Int
  family_mask : Int
  local_convex_data : List (real3 R)
  shapes : List (ChCollisionShapeChrono R)
deriving DecidableEq

/-! ## The collision database `ChCollisionData` -/

/-- The member `shape_data`: per-shape parallel arrays and kind-specific parameter arrays. -/
structure shape_container (R : Type) where
  ObA_rigid : List (real3 R) := []
  ObR_rigid : List (quaternion R) := []
  start_rigid : List Int := []
  length_rigid : List Int := []
  fam_rigid : List short2 := []
  typ_rigid : List ShapeType := []
  id_rigid : List Int := []
  local_rigid : List Int := []
  sphere_rigid : List R := []
  box_like_rigid : List (real3 R) := []
  capsule_rigid : List (real2 R) := []
  rbox_like_rigid : List (real4 R) := []
  convex_rigid : List (real3 R) := []
  triangle_rigid : List (real3 R) := []
deriving DecidableEq

/-- The member `state_data`: per-body state pulled by `Synchronize`. -/
structure state_container (R : Type) where
  pos_rigid : List (real3 R) := []
  rot_rigid : List (quaternion R) := []
  active_rigid : List Int := []
  collide_rigid : List Int := []
  num_rigid_bodies : Nat := 0
  num_fluid_bodies : Nat := 0
deriving DecidableEq

/-- The member `host_data`: derived per-step arrays. -/
structure host_container (R : Type) where
  aabb_min : List (real3 R) := []
  aabb_max : List (real3 R) := []
  pair_shapeIDs : List Int := []
  contact_shapeIDs : List Int := []
  bids_rigid_rigid : List vec2 := []
  c_counts_rigid_fluid : List Int := []
deriving DecidableEq

/-- The object behind `data_manager`. -/
structure ChCollisionData (R : Type) where
  shape_data : shape_container R := {}
  state_data : state_container R := {}
  host_data : host_container R := {}
  num_rigid_shapes : Nat := 0
  num_rigid_contacts : Nat := 0
  num_rigid_fluid_contacts : Nat := 0
deriving DecidableEq

/-! ## `Add` -/

/-- The `switch (shape->GetType())` of `Add`, run on the local `shape_data`: the updated local
container and the values of `start` and `length` after the switch (`length` starts at `1`). -/
def Add.switch {R : Type} [RealArith R] (shape_data : shape_container R)
    (convex_data_offset : Int) (shape : ChCollisionShapeChrono R) :
    shape_container R × Int × Int :=
  let obA := shape.A
  let obB := shape.B
  let obC := shape.C
  match shape.type with
  | .SPHERE =>
      ({ shape_data with sphere_rigid := shape_data.sphere_rigid ++ [obB.x] },
        (shape_data.sphere_rigid.length : Int), 1)
  | .ELLIPSOID | .BOX | .CYLINDER | .CYLSHELL | .CONE =>
      ({ shape_data with box_like_rigid := shape_data.box_like_rigid ++ [obB] },
        (shape_data.box_like_rigid.length : Int), 1)
  | .CAPSULE =>
      ({ shape_data with capsule_rigid := shape_data.capsule_rigid ++ [⟨obB.x, obB.y⟩] },
        (shape_data.capsule_rigid.length : Int), 1)
  | .ROUNDEDBOX | .ROUNDEDCYL | .ROUNDEDCONE =>
      ({ shape_data with
          rbox_like_rigid := shape_data.rbox_like_rigid ++ [real4.ofReal3 obB obC.x] },
        (shape_data.rbox_like_rigid.length : Int), 1)
  | .CONVEX =>
      (shape_data,
        RealArith.toInt (RealArith.add obB.y (RealArith.ofInt convex_data_offset : R)),
        RealArith.toInt obB.x)
  | .TRIANGLE =>
      ({ shape_data with triangle_rigid := shape_data.triangle_rigid ++ [obA, obB, obC] },
        (shape_data.triangle_rigid.length : Int), 1)
  | .OTHER _ => (shape_data, -1, 1)

/-- The variables the shape loop of `Add` updates: the local `shape_data`, the counter
`data_manager->num_rigid_shapes`, and `local_shape_index`. -/
structure Add.LoopState (R : Type) where
  shape_data : shape_container R
  num_rigid_shapes : Nat
  local_shape_index : Int
deriving DecidableEq

/-- One iteration of `for (auto s : pmodel->GetShapes())`. -/
def Add.step {R : Type} [RealArith R] (body_id : Int) (fam : short2) (convex_data_offset : Int)
    (st : Add.LoopState R) (shape : ChCollisionShapeChrono R) : Add.LoopState R :=
  let (sd, start, length) := Add.switch st.shape_data convex_data_offset shape
  { shape_data :=
      { sd with
        ObA_rigid := sd.ObA_rigid ++ [shape.A]
        ObR_rigid := sd.ObR_rigid ++ [shape.R]
        start_rigid := sd.start_rigid ++ [start]
        length_rigid := sd.length_rigid ++ [length]
        fam_rigid := sd.fam_rigid ++ [fam]
        typ_rigid := sd.typ_rigid ++ [shape.type]
        id_rigid := sd.id_rigid ++ [body_id]
        local_rigid := sd.local_rigid ++ [st.local_shape_index] }
    num_rigid_shapes := st.num_rigid_shapes + 1
    local_shape_index := st.local_shape_index + 1 }

/-- The body of `Add` past the collide test: the loop state when the function returns. The
local `shape_data` is declared `auto shape_data = data_manager->shape_data;`. The member is an
object (it is accessed with `.` throughout the file) and `auto` does not deduce a reference,
so the local is a copy of the database member. -/
def Add.run {R : Type} [RealArith R] (data_manager : ChCollisionData R)
    (pmodel : ChCollisionModelChrono R) : Add.LoopState R :=
  let body_id := pmodel.body.id
  let fam := S2 pmodel.family_group pmodel.family_mask
  let shape_data := data_manager.shape_data
  let convex_data_offset : Int := shape_data.convex_rigid.length
  let shape_data :=
    { shape_data with convex_rigid := shape_data.convex_rigid ++ pmodel.local_convex_data }
  pmodel.shapes.foldl (Add.step body_id fam convex_data_offset)
    { shape_data := shape_data
      num_rigid_shapes := data_manager.num_rigid_shapes
      local_shape_index := 0 }

/-- `ChCollisionSystemChrono::Add`: the database after the call. Only the counter is written
through `data_manager`; the arrays the loop fills belong to the local copy, which is dropped
on return. -/
def Add {R : Type} [RealArith R] (data_manager : ChCollisionData R)
    (model : ChCollisionModelChrono R) : ChCollisionData R :=
  if !model.body.collide then data_manager
  else { data_manager with num_rigid_shapes := (Add.run data_manager model).num_rigid_shapes }

/-- The local `shape_data` of `Add` at the point where the function returns (the database
member itself when the collide test returns early). -/
def Add.local_shape_data {R : Type} [RealArith R] (data_manager : ChCollisionData R)
    (model : ChCollisionModelChrono R) : shape_container R :=
  if !model.body.collide then data_manager.shape_data
  else (Add.run data_manager model).shape_data

/-! ## `Remove` -/

/-- `ChCollisionSystemChrono::Remove`: the whole body of the function is inside a comment, so
the call returns with the database untouched. -/
def Remove {R : Type} (data_manager : ChCollisionData R) (_model : ChCollisionModelChrono R) :
    ChCollisionData R :=
  data_manager

/-! ## The collision system object and the stages it drives -/

/-- The members of `broadphase` that the collision system touches. -/
structure ChBroadphase (R : Type) where
  bins_per_axis : vec3
  fixed_bins : Bool
  grid_density : R
deriving DecidableEq

/-- The members of `narrowphase` that the collision system touches. -/
structure ChNarrowphase (R : Type) where
  algorithm : Nat
  envelope : R
deriving DecidableEq

/-- The `ChCollisionSystemChrono` object: the shared database and the three stage objects'
configuration, the active box and the scratch flag array `body_active`. -/
structure CollisionSystem (R : Type) where
  data_manager : ChCollisionData R := {}
  broadphase : ChBroadphase R
  narrowphase : ChNarrowphase R
  use_aabb_active : Bool := false
  aabb_min : real3 R
  aabb_max : real3 R
  body_active : List Int := []
deriving DecidableEq

/-- The methods of `aabb_generator`, `broadphase` and `narrowphase` that `Run` and
`GetOverlappingAABB` call. Their code is in other files; the constructor hands each of these
objects the shared `data_manager` and nothing else of the collision system, so each is a
function of its own object and the database. -/
structure Stages (R : Type) where
  GenerateAABB : R → ChCollisionData R → ChCollisionData R
  DetermineBoundingBox : ChBroadphase R × ChCollisionData R → ChBroadphase R × ChCollisionData R
  OffsetAABB : ChBroadphase R × ChCollisionData R → ChBroadphase R × ChCollisionData R
  ComputeTopLevelResolution :
    ChBroadphase R × ChCollisionData R → ChBroadphase R × ChCollisionData R
  DispatchRigid : ChBroadphase R × ChCollisionData R → ChBroadphase R × ChCollisionData R
  DispatchFluid : ChNarrowphase R × ChCollisionData R → ChNarrowphase R × ChCollisionData R
  ProcessRigids :
    vec3 → ChNarrowphase R × ChCollisionData R → ChNarrowphase R × ChCollisionData R

/-- The database has no bodies or no shapes: the rigid-body count or the rigid-shape count is
zero. -/
def EmptyScene {R : Type} (d : ChCollisionData R) : Prop :=
  d.state_data.num_rigid_bodies = 0 ∨ d.num_rigid_shapes = 0

instance {R : Type} (d : ChCollisionData R) : Decidable (EmptyScene d) :=
  inferInstanceAs (Decidable (_ ∨ _))

/-- Modelled from the spec: what "explicitly clear contact state" leaves of a database. The
contact state is the final contact list (body-id pairs, shape-id pairs), the per-bin contact
counts and the contact totals; everything else is kept. -/
def clearContactState {R : Type} (d : ChCollisionData R) : ChCollisionData R :=
  { d with
    host_data :=
      { d.host_data with
        contact_shapeIDs := []
        bids_rigid_rigid := []
        c_counts_rigid_fluid := [] }
    num_rigid_contacts := 0
    num_rigid_fluid_contacts := 0 }

/-- What every stage of `noopStages` does to the database. -/
def noopStages.onData {R : Type} (d : ChCollisionData R) : ChCollisionData R :=
  if EmptyScene d then clearContactState d else d

/-- Modelled from the spec: the code of the stage methods is absent from the source at hand.
"Zero bodies or zero shapes: pipeline stages degrade to no-ops and explicitly clear contact
state rather than leaving stale data": on a database without bodies or without shapes every
stage of this set returns the database with the contact state cleared. On every other
database the stages return their input: the set computes no AABB, pair or contact, and serves
to evaluate the collision system on databases that already hold these. -/
def noopStages (R : Type) : Stages R where
  GenerateAABB := fun _ d => noopStages.onData d
  DetermineBoundingBox := fun p => (p.1, noopStages.onData p.2)
  OffsetAABB := fun p => (p.1, noopStages.onData p.2)
  ComputeTopLevelResolution := fun p => (p.1, noopStages.onData p.2)
  DispatchRigid := fun p => (p.1, noopStages.onData p.2)
  DispatchFluid := fun p => (p.1, noopStages.onData p.2)
  ProcessRigids := fun _ p => (p.1, noopStages.onData p.2)

/-- The database fields a stage reads but does not write: the shape records, the synchronized
body state and the shape counter ("data flows strictly downstream through the shared
database"). -/
def SameInputs {R : Type} (d' d : ChCollisionData R) : Prop :=
  d'.shape_data = d.shape_data ∧ d'.state_data = d.state_data ∧
    d'.num_rigid_shapes = d.num_rigid_shapes

/-- Every stage leaves the shape records, the body state and the shape counter as it found
them. -/
structure Stages.ReadOnlyInputs {R : Type} (st : Stages R) : Prop where
  GenerateAABB : ∀ e d, SameInputs (st.GenerateAABB e d) d
  DetermineBoundingBox : ∀ p, SameInputs (st.DetermineBoundingBox p).2 p.2
  OffsetAABB : ∀ p, SameInputs (st.OffsetAABB p).2 p.2
  ComputeTopLevelResolution : ∀ p, SameInputs (st.ComputeTopLevelResolution p).2 p.2
  DispatchRigid : ∀ p, SameInputs (st.DispatchRigid p).2 p.2
  DispatchFluid : ∀ p, SameInputs (st.DispatchFluid p).2 p.2
  ProcessRigids : ∀ b p, SameInputs (st.ProcessRigids b p).2 p.2

/-! ## Indexing -/

/-- The read `v[i]` with an `int` index. -/
def readAt {α : Type} (v : List α) (i : Int) : Option α :=
  if 0 ≤ i then v[i.toNat]? else none

/-- The write `v[i] = x` with an `int` index. -/
def writeAt {α : Type} (v : List α) (i : Int) (x : α) : Option (List α) :=
  if 0 ≤ i ∧ i.toNat < v.length then some (v.set i.toNat x) else none

/-- The call `v.resize(n)`: the first `n` elements are kept, new elements are `fill`. -/
def resize {α : Type} (v : List α) (n : Nat) (fill : α) : List α :=
  v.take n ++ List.replicate (n - v.length) fill

/-- The value a `bool` has when stored in a `char`. -/
def boolToChar (b : Bool) : Int := if b then 1 else 0

/-- The conversion of an integer to the 32-bit `int`. -/
def toInt32 (z : Int) : Int := (z + 2 ^ 31) % 2 ^ 32 - 2 ^ 31

/-! ## `Synchronize` -/

/-- The loop `for (int i = 0; i < nbodies; i++)` of `Synchronize`, from index `i` on, over
the bodies `blist[i], blist[i+1], ...`. -/
def Synchronize.loop {R : Type} :
    Nat → List (ChBody R) → state_container R → state_container R
  | _, [], sd => sd
  | i, body :: rest, sd =>
      Synchronize.loop (i + 1) rest
        { sd with
          pos_rigid := sd.pos_rigid.set i ⟨body.pos.x, body.pos.y, body.pos.z⟩
          rot_rigid := sd.rot_rigid.set i ⟨body.rot.e0, body.rot.e1, body.rot.e2, body.rot.e3⟩
          active_rigid := sd.active_rigid.set i (boolToChar body.active)
          collide_rigid := sd.collide_rigid.set i (boolToChar body.collide) }

/-- `ChCollisionSystemChrono::Synchronize` on the body list `blist` of the owning system.
`pos_fill` and `rot_fill` are what `resize` leaves in the elements it creates. -/
def Synchronize {R : Type} (pos_fill : real3 R) (rot_fill : quaternion R)
    (blist : List (ChBody R)) (data_manager : ChCollisionData R) : ChCollisionData R :=
  let sd := data_manager.state_data
  let nbodies := blist.length
  let sd : state_container R :=
    { pos_rigid := resize sd.pos_rigid (3 * nbodies) pos_fill
      rot_rigid := resize sd.rot_rigid (4 * nbodies) rot_fill
      active_rigid := resize sd.active_rigid nbodies 0
      collide_rigid := resize sd.collide_rigid nbodies 0
      num_rigid_bodies := nbodies
      num_fluid_bodies := 0 }
  { data_manager with state_data := Synchronize.loop 0 blist sd }

/-! ## `GetOverlappingAABB` -/

/-- The test `inContact` of `GetOverlappingAABB`. -/
def inContact {R : Type} [RealArith R] (Amin Amax Bmin Bmax : real3 R) : Bool :=
  (RealArith.le Amin.x Bmax.x && RealArith.le Bmin.x Amax.x) &&
    (RealArith.le Amin.y Bmax.y && RealArith.le Bmin.y Amax.y) &&
    (RealArith.le Amin.z Bmax.z && RealArith.le Bmin.z Amax.z)

/-- The body of the shape loop of `GetOverlappingAABB` at index `i`. -/
def GetOverlappingAABB.body {R : Type} [RealArith R] (d : ChCollisionData R)
    (Amin Amax : real3 R) (active_id : List Int) (i : Nat) : Option (List Int) := do
  let Bmin ← d.host_data.aabb_min[i]?
  let Bmax ← d.host_data.aabb_max[i]?
  if inContact Amin Amax Bmin Bmax then
    let id ← d.shape_data.id_rigid[i]?
    writeAt active_id id 1
  else
    pure active_id

/-- `ChCollisionSystemChrono::GetOverlappingAABB`: the system after the AABB generation and
the flag array `active_id` after the loop over `typ_rigid`. -/
def GetOverlappingAABB {R : Type} [RealArith R] (st : Stages R) (s : CollisionSystem R)
    (active_id : List Int) (Amin Amax : real3 R) : Option (CollisionSystem R × List Int) := do
  let d := st.GenerateAABB s.narrowphase.envelope s.data_manager
  let flags ← (List.range d.shape_data.typ_rigid.length).foldlM
    (GetOverlappingAABB.body d Amin Amax) active_id
  pure ({ s with data_manager := d }, flags)

/-! ## `Run` -/

/-- The body of the loop over `active_rigid` in `Run` at index `i`. -/
def Run.filterBody {R : Type} (body_active : List Int) (sd : state_container R) (i : Nat) :
    Option (state_container R) := do
  let a ← sd.active_rigid[i]?
  if a ≠ 0 then
    let c ← sd.collide_rigid[i]?
    if c ≠ 0 then
      let v ← body_active[i]?
      pure { sd with active_rigid := sd.active_rigid.set i v }
    else pure sd
  else pure sd

/-- The block of `Run` guarded by `use_aabb_active`. -/
def Run.activeFilter {R : Type} [RealArith R] (st : Stages R) (s : CollisionSystem R) :
    Option (CollisionSystem R) := do
  let body_active := resize s.body_active s.data_manager.state_data.num_rigid_bodies 0
  let body_active := List.replicate body_active.length (0 : Int)
  let (s, body_active) ← GetOverlappingAABB st s body_active s.aabb_min s.aabb_max
  let sd ← (List.range s.data_manager.state_data.active_rigid.length).foldlM
    (Run.filterBody body_active) s.data_manager.state_data
  pure { s with data_manager := { s.data_manager with state_data := sd },
                body_active := body_active }

/-- The part of `Run` after the active-box block: AABB generation, broadphase, narrowphase. -/
def Run.pipeline {R : Type} (st : Stages R) (s : CollisionSystem R) : CollisionSystem R :=
  let d := st.GenerateAABB s.narrowphase.envelope s.data_manager
  let p := st.DetermineBoundingBox (s.broadphase, d)
  let p := st.OffsetAABB p
  let p := st.ComputeTopLevelResolution p
  let p := st.DispatchRigid p
  let broadphase := p.1
  let q : ChNarrowphase R × ChCollisionData R := (s.narrowphase, p.2)
  let q := if q.2.state_data.num_fluid_bodies ≠ 0 then st.DispatchFluid q else q
  let q :=
    if q.2.num_rigid_shapes ≠ 0 then st.ProcessRigids broadphase.bins_per_axis q
    else
      (q.1, { q.2 with
                host_data := { q.2.host_data with c_counts_rigid_fluid := [] }
                num_rigid_fluid_contacts := 0 })
  { s with data_manager := q.2, broadphase := broadphase, narrowphase := q.1 }

/-- `ChCollisionSystemChrono::Run`. -/
def Run {R : Type} [RealArith R] (st : Stages R) (s : CollisionSystem R) :
    Option (CollisionSystem R) := do
  let s ← if s.use_aabb_active then Run.activeFilter st s else pure s
  pure (Run.pipeline st s)

/-! ## `ReportContacts` -/

/-- The calls a contact container receives. -/
inductive ContainerCall where
  | BeginAddContact
  | EndAddContact
deriving DecidableEq

/-- The body of the contact loop of `ReportContacts` at index `i`: it reads the body pair, the
packed shape pair and the two local shape indices, and stores nothing. -/
def ReportContacts.body {R : Type} (d : ChCollisionData R) (i : Nat) : Option Unit := do
  let _b ← d.host_data.bids_rigid_rigid[i]?
  let sid ← d.host_data.contact_shapeIDs[i]?
  let s1 := toInt32 (sid / 2 ^ 32)
  let s2 := toInt32 (sid % 2 ^ 32)
  let _s1_index ← readAt d.shape_data.local_rigid s1
  let _s2_index ← readAt d.shape_data.local_rigid s2
  pure ()

/-- `ChCollisionSystemChrono::ReportContacts`: the sequence of calls made on the container.
`num_contacts` is a `uint`; the loop bound is `(signed)num_contacts`. -/
def ReportContacts {R : Type} (d : ChCollisionData R) : Option (List ContainerCall) :=
  let calls := [ContainerCall.BeginAddContact]
  let num_contacts : Nat := d.num_rigid_contacts % 2 ^ 32
  if num_contacts ≤ 0 then some calls
  else do
    let _ ← (List.range (toInt32 (num_contacts : Int)).toNat).foldlM
      (fun (_ : Unit) i => ReportContacts.body d i) ()
    pure (calls ++ [ContainerCall.EndAddContact])

/-! ## `GetOverlappingPairs` -/

/-- The unpacking of one packed 64-bit pair key: `I2(int(key >> 32), int(key & 0xffffffff))`. -/
def unpackPair (key : Int) : vec2 :=
  I2 (toInt32 (key / 2 ^ 32)) (toInt32 (key % 2 ^ 32))

/-- `ChCollisionSystemChrono::GetOverlappingPairs`. -/
def GetOverlappingPairs {R : Type} (d : ChCollisionData R) : List vec2 :=
  d.host_data.pair_shapeIDs.map unpackPair

/-! ## Vocabulary of the statements -/

/-- The flag of body `b` in a `char` flag array is set: the entry exists and is not `0`. -/
def flagSet (flags : List Int) (b : Nat) : Prop :=
  ∃ x, flags[b]? = some x ∧ x ≠ 0

/-- The boxes `[Amin, Amax]` and `[Bmin, Bmax]` overlap: `Amin <= Bmax` and `Bmin <= Amax` on
each of the three axes. -/
def Overlaps {R : Type} [RealArith R] (Amin Amax Bmin Bmax : real3 R) : Prop :=
  (RealArith.le Amin.x Bmax.x = true ∧ RealArith.le Bmin.x Amax.x = true) ∧
  (RealArith.le Amin.y Bmax.y = true ∧ RealArith.le Bmin.y Amax.y = true) ∧
  (RealArith.le Amin.z Bmax.z = true ∧ RealArith.le Bmin.z Amax.z = true)

/-- Shape `i` of the database is owned by body `b` and its AABB overlaps `[Amin, Amax]`. -/
def ShapeHits {R : Type} [RealArith R] (d : ChCollisionData R) (Amin Amax : real3 R)
    (b i : Nat) : Prop :=
  ∃ Bmin Bmax, d.host_data.aabb_min[i]? = some Bmin ∧ d.host_data.aabb_max[i]? = some Bmax ∧
    d.shape_data.id_rigid[i]? = some (b : Int) ∧ Overlaps Amin Amax Bmin Bmax

/-- Every shape of the database has an AABB and an owner id that indexes a flag array of
length `n`. -/
def ShapesValid {R : Type} (d : ChCollisionData R) (n : Nat) : Prop :=
  ∀ i, i < d.shape_data.typ_rigid.length →
    i < d.host_data.aabb_min.length ∧ i < d.host_data.aabb_max.length ∧
      ∃ id : Int, d.shape_data.id_rigid[i]? = some id ∧ 0 ≤ id ∧ id.toNat < n

/-- The state is as `Synchronize` leaves it for the active-box block of `Run`: the active and
collide arrays have one entry per rigid body, and after the AABB generation every shape has an
AABB and a valid owner. -/
def FilterReady {R : Type} (st : Stages R) (s : CollisionSystem R) : Prop :=
  s.data_manager.state_data.active_rigid.length = s.data_manager.state_data.num_rigid_bodies ∧
  s.data_manager.state_data.collide_rigid.length = s.data_manager.state_data.num_rigid_bodies ∧
  ShapesValid (st.GenerateAABB s.narrowphase.envelope s.data_manager)
    s.data_manager.state_data.num_rigid_bodies

/-- Writing `f b`, for the successive elements `b` of a list, at the successive indices from
`i`: what the loop of `Synchronize` does to each of its four arrays. -/
def setFrom {α β : Type} (f : β → α) : Nat → List β → List α → List α
  | _, [], v => v
  | i, b :: rest, v => setFrom f (i + 1) rest (v.set i (f b))

/-! ## Database invariants and reachable states -/

/-- The length of the kind-specific parameter array that the switch of `Add` indexes for a
shape kind: the sphere, box-like, capsule and rounded-box arrays, the shared convex point pool
and the shared triangle vertex pool. The kinds of the `default:` branch have none. -/
def poolLength {R : Type} (sd : shape_container R) : ShapeType → Option Nat
  | .SPHERE => some sd.sphere_rigid.length
  | .ELLIPSOID | .BOX | .CYLINDER | .CYLSHELL | .CONE => some sd.box_like_rigid.length
  | .CAPSULE => some sd.capsule_rigid.length
  | .ROUNDEDBOX | .ROUNDEDCYL | .ROUNDEDCONE => some sd.rbox_like_rigid.length
  | .CONVEX => some sd.convex_rigid.length
  | .TRIANGLE => some sd.triangle_rigid.length
  | .OTHER _ => none

/-- Index alignment of a shape container: the eight per-shape arrays have one common length,
and for every record `start + length` does not exceed the length of the parameter array of
its kind. -/
def IndexAligned {R : Type} (sd : shape_container R) : Prop :=
  (sd.ObR_rigid.length = sd.ObA_rigid.length ∧
    sd.start_rigid.length = sd.ObA_rigid.length ∧
    sd.length_rigid.length = sd.ObA_rigid.length ∧
    sd.fam_rigid.length = sd.ObA_rigid.length ∧
    sd.typ_rigid.length = sd.ObA_rigid.length ∧
    sd.id_rigid.length = sd.ObA_rigid.length ∧
    sd.local_rigid.length = sd.ObA_rigid.length) ∧
  ∀ (i : Nat) (typ : ShapeType) (start len : Int) (n : Nat),
    sd.typ_rigid[i]? = some typ → sd.start_rigid[i]? = some start →
    sd.length_rigid[i]? = some len → poolLength sd typ = some n → start + len ≤ (n : Int)

/-- The database states reachable from the empty database by `Add` and `Remove` calls. -/
inductive Reachable {R : Type} [RealArith R] : ChCollisionData R → Prop where
  | empty : Reachable {}
  | add (d : ChCollisionData R) (m : ChCollisionModelChrono R) :
      Reachable d → Reachable (Add d m)
  | remove (d : ChCollisionData R) (m : ChCollisionModelChrono R) :
      Reachable d → Reachable (Remove d m)

/-- The database after `Add` has been called, from the empty database, on each model of a
list in turn. -/
def AddAll {R : Type} [RealArith R] (models : List (ChCollisionModelChrono R)) :
    ChCollisionData R :=
  models.foldl Add {}

/-- The number of shapes that the calls of `AddAll` run their loop over: those of the models
whose body collides. -/
def collidingShapes {R : Type} : List (ChCollisionModelChrono R) → Nat
  | [] => 0
  | m :: rest => (if m.body.collide then m.shapes.length else 0) + collidingShapes rest

/-! ## Concrete inputs, over the integers -/

namespace Examples

def body : ChBody Int :=
  { id := 7, pos := ⟨1, 2, 3⟩, rot := ⟨1, 0, 0, 0⟩, active := true, collide := true }

def ghostBody : ChBody Int :=
  { id := 8, pos := ⟨4, 5, 6⟩, rot := ⟨1, 0, 0, 0⟩, active := true, collide := false }

def sphere : ChCollisionShapeChrono Int :=
  { type := .SPHERE, A := ⟨0, 0, 0⟩, B := ⟨1, 0, 0⟩, C := ⟨0, 0, 0⟩, R := ⟨1, 0, 0, 0⟩ }

/-- One sphere on a body that collides. -/
def sphereModel : ChCollisionModelChrono Int :=
  { body := body, family_group := 1, family_mask := 2, local_convex_data := [],
    shapes := [sphere] }

/-- One sphere on a body with collision disabled. -/
def ghostModel : ChCollisionModelChrono Int :=
  { body := ghostBody, family_group := 1, family_mask := 2, local_convex_data := [],
    shapes := [sphere] }

/-- The database of a freshly constructed collision system. -/
def emptyData : ChCollisionData Int := {}

/-- Two bodies, both active and collidable; shape 0 belongs to body 0 and has the AABB
`[0,1]^3`, shape 1 belongs to body 1 and has the AABB `[10,11]^3`. -/
def twoShapes : ChCollisionData Int :=
  { shape_data := { typ_rigid := [.SPHERE, .BOX], id_rigid := [0, 1] }
    state_data :=
      { active_rigid := [1, 1], collide_rigid := [1, 1], num_rigid_bodies := 2 }
    host_data :=
      { aabb_min := [⟨0, 0, 0⟩, ⟨10, 10, 10⟩], aabb_max := [⟨1, 1, 1⟩, ⟨11, 11, 11⟩] }
    num_rigid_shapes := 2 }

/-- The collision system over `twoShapes` with the active box `[0,2]^3` enabled. -/
def boxSystem : CollisionSystem Int :=
  { data_manager := twoShapes
    broadphase := { bins_per_axis := ⟨1, 1, 1⟩, fixed_bins := false, grid_density := 5 }
    narrowphase := { algorithm := 0, envelope := 0 }
    use_aabb_active := true
    aabb_min := ⟨0, 0, 0⟩
    aabb_max := ⟨2, 2, 2⟩ }

/-- A synchronized system without shapes: one body that is active but does not collide, the
active box enabled, and five rigid contacts left over from an earlier step. -/
def staleSystem : CollisionSystem Int :=
  { data_manager :=
      { state_data := { active_rigid := [1], collide_rigid := [0], num_rigid_bodies := 1 }
        host_data := { c_counts_rigid_fluid := [4, 2] }
        num_rigid_contacts := 5
        num_rigid_fluid_contacts := 6 }
    broadphase := { bins_per_axis := ⟨1, 1, 1⟩, fixed_bins := false, grid_density := 5 }
    narrowphase := { algorithm := 0, envelope := 0 }
    use_aabb_active := true
    aabb_min := ⟨0, 0, 0⟩
    aabb_max := ⟨2, 2, 2⟩ }

/-- A database with one rigid contact, between shapes 0 and 1 of bodies 0 and 1. -/
def oneContact : ChCollisionData Int :=
  { shape_data := { local_rigid := [0, 0] }
    host_data := { bids_rigid_rigid := [⟨0, 1⟩], contact_shapeIDs := [0 * 2 ^ 32 + 1] }
    num_rigid_contacts := 1 }

/-- A triangle with the vertices `(0,0,0)`, `(1,0,0)`, `(0,1,0)`. -/
def triangle : ChCollisionShapeChrono Int :=
  { type := .TRIANGLE, A := ⟨0, 0, 0⟩, B := ⟨1, 0, 0⟩, C := ⟨0, 1, 0⟩, R := ⟨1, 0, 0, 0⟩ }

/-- A sphere followed by two triangles, on a body that collides. -/
def triangleModel : ChCollisionModelChrono Int :=
  { body := body, family_group := 1, family_mask := 2, local_convex_data := [],
    shapes := [sphere, triangle, triangle] }

/-- A database whose candidate-pair list holds the packed pairs `(3, 5)` and `(0, 9)`. -/
def pairData : ChCollisionData Int :=
  { host_data := { pair_shapeIDs := [3 * 2 ^ 32 + 5, 0 * 2 ^ 32 + 9] } }

end Examples

/-! # Theorems -/

/-! ## `Add` and `Remove` -/

theorem Add.step_num {R : Type} [RealArith R] (body_id : Int) (fam : short2) (off : Int)
    (st : Add.LoopState R) (shape : ChCollisionShapeChrono R) :
    (Add.step body_id fam off st shape).num_rigid_shapes = st.num_rigid_shapes + 1 := by
  simp [Add.step]

theorem Add.foldl_num {R : Type} [RealArith R] (body_id : Int) (fam : short2) (off : Int)
    (shapes : List (ChCollisionShapeChrono R)) (st : Add.LoopState R) :
    (shapes.foldl (Add.step body_id fam off) st).num_rigid_shapes =
      st.num_rigid_shapes + shapes.length := by
  induction shapes generalizing st with
  | nil => simp
  | cons s rest ih =>
      simp only [List.foldl_cons, List.length_cons]
      rw [ih, Add.step_num]
      omega

/-- The loop of `Add` raises the counter by the number of shapes of the model. -/
theorem Add.run_num {R : Type} [RealArith R] (d : ChCollisionData R)
    (m : ChCollisionModelChrono R) :
    (Add.run d m).num_rigid_shapes = d.num_rigid_shapes + m.shapes.length := by
  simp [Add.run, Add.foldl_num]

/-- The switch of `Add` leaves the eight per-shape arrays of the container alone. -/
theorem Add.switch_per_shape {R : Type} [RealArith R] (sd : shape_container R) (off : Int)
    (shape : ChCollisionShapeChrono R) :
    (Add.switch sd off shape).1.ObA_rigid = sd.ObA_rigid ∧
    (Add.switch sd off shape).1.ObR_rigid = sd.ObR_rigid ∧
    (Add.switch sd off shape).1.start_rigid = sd.start_rigid ∧
    (Add.switch sd off shape).1.length_rigid = sd.length_rigid ∧
    (Add.switch sd off shape).1.fam_rigid = sd.fam_rigid ∧
    (Add.switch sd off shape).1.typ_rigid = sd.typ_rigid ∧
    (Add.switch sd off shape).1.id_rigid = sd.id_rigid ∧
    (Add.switch sd off shape).1.local_rigid = sd.local_rigid := by
  unfold Add.switch
  split <;> simp

theorem Add.foldl_local {R : Type} [RealArith R] (body_id : Int) (fam : short2) (off : Int)
    (shapes : List (ChCollisionShapeChrono R)) (st : Add.LoopState R) :
    (shapes.foldl (Add.step body_id fam off) st).shape_data.ObA_rigid =
        st.shape_data.ObA_rigid ++ shapes.map (fun s => s.A) ∧
    (shapes.foldl (Add.step body_id fam off) st).shape_data.ObR_rigid =
        st.shape_data.ObR_rigid ++ shapes.map (fun s => s.R) ∧
    (shapes.foldl (Add.step body_id fam off) st).shape_data.start_rigid.length =
        st.shape_data.start_rigid.length + shapes.length ∧
    (shapes.foldl (Add.step body_id fam off) st).shape_data.length_rigid.length =
        st.shape_data.length_rigid.length + shapes.length ∧
    (shapes.foldl (Add.step body_id fam off) st).shape_data.fam_rigid =
        st.shape_data.fam_rigid ++ List.replicate shapes.length fam ∧
    (shapes.foldl (Add.step body_id fam off) st).shape_data.typ_rigid =
        st.shape_data.typ_rigid ++ shapes.map (fun s => s.type) ∧
    (shapes.foldl (Add.step body_id fam off) st).shape_data.id_rigid =
        st.shape_data.id_rigid ++ List.replicate shapes.length body_id ∧
    (shapes.foldl (Add.step body_id fam off) st).shape_data.local_rigid =
        st.shape_data.local_rigid ++
          (List.range shapes.length).map (fun j : Nat => st.local_shape_index + (j : Int)) := by
  induction shapes generalizing st with
  | nil => simp
  | cons s rest ih =>
      obtain ⟨h1, h2, h3, h4, h5, h6, h7, h8⟩ := Add.switch_per_shape st.shape_data off s
      obtain ⟨i1, i2, i3, i4, i5, i6, i7, i8⟩ := ih (Add.step body_id fam off st s)
      simp only [List.foldl_cons, i1, i2, i3, i4, i5, i6, i7, i8]
      simp only [Add.step, h1, h2, h3, h4, h5, h6, h7, h8, List.length_append, List.length_cons,
        List.length_nil, List.map_cons, List.append_assoc, List.singleton_append,
        List.replicate_succ, List.range_succ_eq_map, List.map_map]
      refine ⟨trivial, trivial, by omega, by omega, trivial, trivial, trivial, ?_⟩
      simp only [List.cons.injEq, List.append_cancel_left_eq]
      refine ⟨by simp, ?_⟩
      apply List.map_congr_left
      intro j _
      simp only [Function.comp, Nat.succ_eq_add_one]
      push_cast
      omega

/-- The records the loop of `Add` appends reach its local container: with `k` shapes and
`collide = true`, the eight per-shape arrays of the local copy are those of the database
followed by `k` entries, with the body id as owner, the family pair, and the local indices
`0, 1, ..., k-1`. -/
theorem Add.local_shape_data_records {R : Type} [RealArith R] (d : ChCollisionData R)
    (m : ChCollisionModelChrono R) (h : m.body.collide = true) :
    (Add.local_shape_data d m).ObA_rigid = d.shape_data.ObA_rigid ++ m.shapes.map (fun s => s.A) ∧
    (Add.local_shape_data d m).ObR_rigid = d.shape_data.ObR_rigid ++ m.shapes.map (fun s => s.R) ∧
    (Add.local_shape_data d m).start_rigid.length =
        d.shape_data.start_rigid.length + m.shapes.length ∧
    (Add.local_shape_data d m).length_rigid.length =
        d.shape_data.length_rigid.length + m.shapes.length ∧
    (Add.local_shape_data d m).fam_rigid =
        d.shape_data.fam_rigid ++
          List.replicate m.shapes.length { x := m.family_group, y := m.family_mask } ∧
    (Add.local_shape_data d m).typ_rigid =
        d.shape_data.typ_rigid ++ m.shapes.map (fun s => s.type) ∧
    (Add.local_shape_data d m).id_rigid =
        d.shape_data.id_rigid ++ List.replicate m.shapes.length m.body.id ∧
    (Add.local_shape_data d m).local_rigid =
        d.shape_data.local_rigid ++ (List.range m.shapes.length).map (fun j : Nat => (j : Int)) := by
  have := Add.foldl_local m.body.id (S2 m.family_group m.family_mask)
    (d.shape_data.convex_rigid.length : Int) m.shapes
    { shape_data :=
        { d.shape_data with
          convex_rigid := d.shape_data.convex_rigid ++ m.local_convex_data }
      num_rigid_shapes := d.num_rigid_shapes
      local_shape_index := 0 }
  simpa [Add.local_shape_data, Add.run, h, S2] using this

/-- Whatever the model, `Add` leaves the member `shape_data` of the database as it was. -/
theorem Add_shape_data {R : Type} [RealArith R] (d : ChCollisionData R)
    (m : ChCollisionModelChrono R) : (Add d m).shape_data = d.shape_data := by
  unfold Add
  split <;> rfl

/-- C1: on the empty database, `Add` of a model with one sphere whose body has
`collide = true` leaves each of the eight per-shape arrays of the database at length `0`, not
`1`; only the shape counter moves, to `1`. The records are appended to the local copy
`auto shape_data = data_manager->shape_data`. -/
theorem Add_sphere_leaves_database_arrays_empty :
    Examples.sphereModel.body.collide = true ∧ Examples.sphereModel.shapes.length = 1 ∧
    (Add Examples.emptyData Examples.sphereModel).shape_data.ObA_rigid.length = 0 ∧
    (Add Examples.emptyData Examples.sphereModel).shape_data.ObR_rigid.length = 0 ∧
    (Add Examples.emptyData Examples.sphereModel).shape_data.start_rigid.length = 0 ∧
    (Add Examples.emptyData Examples.sphereModel).shape_data.length_rigid.length = 0 ∧
    (Add Examples.emptyData Examples.sphereModel).shape_data.fam_rigid.length = 0 ∧
    (Add Examples.emptyData Examples.sphereModel).shape_data.typ_rigid.length = 0 ∧
    (Add Examples.emptyData Examples.sphereModel).shape_data.id_rigid.length = 0 ∧
    (Add Examples.emptyData Examples.sphereModel).shape_data.local_rigid.length = 0 ∧
    (Add Examples.emptyData Examples.sphereModel).num_rigid_shapes = 1 ∧
    (Add.local_shape_data Examples.emptyData Examples.sphereModel).id_rigid = [7] := by
  decide

/-- C2: when the owning body has `collide = false`, `Add` returns the database it was given:
no shape array, parameter array, point pool or counter changes, and the call completes. -/
theorem Add_collide_false_noop {R : Type} [RealArith R] (d : ChCollisionData R)
    (m : ChCollisionModelChrono R) (h : m.body.collide = false) : Add d m = d := by
  simp [Add, h]

/-- `Add_collide_false_noop` at the ghost model, on a database that already holds shapes. -/
theorem Add_collide_false_noop_witness :
    Examples.ghostModel.body.collide = false ∧
      Add Examples.twoShapes Examples.ghostModel = Examples.twoShapes :=
  ⟨rfl, Add_collide_false_noop Examples.twoShapes Examples.ghostModel rfl⟩

/-- Adding the one-sphere model to the empty database and removing it again leaves the shape
counter at `1`, not at its pre-add value `0`. -/
theorem Add_Remove_counter_not_restored :
    Examples.sphereModel.body.collide = true ∧
    (Remove (Add Examples.emptyData Examples.sphereModel) Examples.sphereModel).num_rigid_shapes
      = 1 ∧
    Examples.emptyData.num_rigid_shapes = 0 ∧
    (Remove (Add Examples.emptyData Examples.sphereModel) Examples.sphereModel).num_rigid_shapes
      ≠ Examples.emptyData.num_rigid_shapes := by
  decide

/-- C3, amended: for a model whose body has `collide = true`, `Remove` after `Add` changes
nothing: the database is as `Add` left it, and the shape counter is the pre-add count plus the
number of shapes of the model. -/
theorem Add_Remove_keeps_Add {R : Type} [RealArith R] (d : ChCollisionData R)
    (m : ChCollisionModelChrono R) (h : m.body.collide = true) :
    Remove (Add d m) m = Add d m ∧
      (Remove (Add d m) m).num_rigid_shapes = d.num_rigid_shapes + m.shapes.length := by
  refine ⟨rfl, ?_⟩
  simp [Remove, Add, h, Add.run_num]

/-- `Add_Remove_keeps_Add` at the one-sphere model on the two-shape database. -/
theorem Add_Remove_keeps_Add_witness :
    Examples.sphereModel.body.collide = true ∧
    Remove (Add Examples.twoShapes Examples.sphereModel) Examples.sphereModel =
        Add Examples.twoShapes Examples.sphereModel ∧
    (Remove (Add Examples.twoShapes Examples.sphereModel) Examples.sphereModel).num_rigid_shapes
      = Examples.twoShapes.num_rigid_shapes + Examples.sphereModel.shapes.length :=
  ⟨rfl, Add_Remove_keeps_Add Examples.twoShapes Examples.sphereModel rfl⟩

/-! ## `ReportContacts` -/

/-- With one contact whose indices are in range, the container receives `BeginAddContact` and
then `EndAddContact`. -/
theorem ReportContacts_one_contact_brackets :
    ReportContacts Examples.oneContact =
      some [ContainerCall.BeginAddContact, ContainerCall.EndAddContact] := by
  decide

/-- C4: with a rigid contact total of zero, `ReportContacts` makes exactly one call on the
container, `BeginAddContact`; the `return` under `num_contacts <= 0` comes before
`EndAddContact`, which is not called. -/
theorem ReportContacts_zero_contacts_skips_End {R : Type} (d : ChCollisionData R) :
    ReportContacts { d with num_rigid_contacts := 0 } =
      some [ContainerCall.BeginAddContact] := by
  simp [ReportContacts]

/-! ## `Synchronize` -/

theorem setFrom_length {α β : Type} (f : β → α) (bs : List β) (i : Nat) (v : List α) :
    (setFrom f i bs v).length = v.length := by
  induction bs generalizing i v with
  | nil => rfl
  | cons b rest ih => simp [setFrom, ih]

theorem setFrom_below {α β : Type} (f : β → α) (bs : List β) (i : Nat) (v : List α) (j : Nat)
    (hj : j < i) : (setFrom f i bs v)[j]? = v[j]? := by
  induction bs generalizing i v with
  | nil => rfl
  | cons b rest ih =>
      simp only [setFrom]
      rw [ih (i + 1) _ (by omega), List.getElem?_set_ne (by omega)]

theorem setFrom_at {α β : Type} (f : β → α) (bs : List β) (i : Nat) (v : List α) (k : Nat)
    (hk : k < bs.length) (hv : i + k < v.length) :
    (setFrom f i bs v)[i + k]? = some (f bs[k]) := by
  induction bs generalizing i v k with
  | nil => simp at hk
  | cons b rest ih =>
      simp only [setFrom]
      cases k with
      | zero =>
          have hv0 : i < v.length := by simpa using hv
          show (setFrom f (i + 1) rest (v.set i (f b)))[i]? = _
          rw [setFrom_below f rest (i + 1) _ i (by omega)]
          simp [hv0]
      | succ k =>
          have := ih (i + 1) (v.set i (f b)) k (by simpa using hk) (by simp; omega)
          rw [show i + (k + 1) = i + 1 + k by omega, this]
          simp

theorem Synchronize.loop_eq {R : Type} (bs : List (ChBody R)) (i : Nat)
    (sd : state_container R) :
    Synchronize.loop i bs sd =
      { sd with
        pos_rigid :=
          setFrom (fun b : ChBody R => (⟨b.pos.x, b.pos.y, b.pos.z⟩ : real3 R)) i bs
            sd.pos_rigid
        rot_rigid :=
          setFrom (fun b : ChBody R =>
            (⟨b.rot.e0, b.rot.e1, b.rot.e2, b.rot.e3⟩ : quaternion R)) i bs sd.rot_rigid
        active_rigid := setFrom (fun b : ChBody R => boolToChar b.active) i bs sd.active_rigid
        collide_rigid :=
          setFrom (fun b : ChBody R => boolToChar b.collide) i bs sd.collide_rigid } := by
  induction bs generalizing i sd with
  | nil => rfl
  | cons b rest ih => simp only [Synchronize.loop, ih, setFrom]

theorem resize_length {α : Type} (v : List α) (n : Nat) (fill : α) :
    (resize v n fill).length = n := by
  simp [resize]; omega


/-- C6: after `Synchronize` on a body list of length `n` the active and collide arrays have
length `n`, the position array has length `3 * n` and the orientation array `4 * n`
(`position.resize(3 * nbodies)`, `rotation.resize(4 * nbodies)`); for one body the position
array has three entries and the orientation array four. -/
theorem Synchronize_array_lengths {R : Type} (pos_fill : real3 R) (rot_fill : quaternion R)
    (blist : List (ChBody R)) (d : ChCollisionData R) :
    (Synchronize pos_fill rot_fill blist d).state_data.pos_rigid.length = 3 * blist.length ∧
    (Synchronize pos_fill rot_fill blist d).state_data.rot_rigid.length = 4 * blist.length ∧
    (Synchronize pos_fill rot_fill blist d).state_data.active_rigid.length = blist.length ∧
    (Synchronize pos_fill rot_fill blist d).state_data.collide_rigid.length = blist.length := by
  simp [Synchronize, Synchronize.loop_eq, setFrom_length, resize_length]

/-- C7: after `Synchronize` the recorded number of rigid bodies is the length of the body
list, whatever that length is, and for every `i` below it, entry `i` of the position array is
the position of body `i`, entry `i` of the orientation array is `quaternion(e0, e1, e2, e3)`
of its rotation, and entries `i` of the active and collide arrays are its `IsActive` and
`GetCollide` flags. -/
theorem Synchronize_copies_bodies {R : Type} (pos_fill : real3 R) (rot_fill : quaternion R)
    (blist : List (ChBody R)) (d : ChCollisionData R) :
    (Synchronize pos_fill rot_fill blist d).state_data.num_rigid_bodies = blist.length ∧
    ∀ (i : Nat) (hi : i < blist.length),
      (Synchronize pos_fill rot_fill blist d).state_data.pos_rigid[i]? =
          some ⟨blist[i].pos.x, blist[i].pos.y, blist[i].pos.z⟩ ∧
      (Synchronize pos_fill rot_fill blist d).state_data.rot_rigid[i]? =
          some ⟨blist[i].rot.e0, blist[i].rot.e1, blist[i].rot.e2, blist[i].rot.e3⟩ ∧
      (Synchronize pos_fill rot_fill blist d).state_data.active_rigid[i]? =
          some (boolToChar blist[i].active) ∧
      (Synchronize pos_fill rot_fill blist d).state_data.collide_rigid[i]? =
          some (boolToChar blist[i].collide) := by
  simp only [Synchronize, Synchronize.loop_eq]
  refine ⟨trivial, fun i hi => ⟨?_, ?_, ?_, ?_⟩⟩
  · have := setFrom_at (fun b : ChBody R => (⟨b.pos.x, b.pos.y, b.pos.z⟩ : real3 R)) blist 0
      (resize d.state_data.pos_rigid (3 * blist.length) pos_fill) i hi
      (by rw [resize_length]; omega)
    simpa using this
  · have := setFrom_at
      (fun b : ChBody R => (⟨b.rot.e0, b.rot.e1, b.rot.e2, b.rot.e3⟩ : quaternion R)) blist 0
      (resize d.state_data.rot_rigid (4 * blist.length) rot_fill) i hi
      (by rw [resize_length]; omega)
    simpa using this
  · have := setFrom_at (fun b : ChBody R => boolToChar b.active) blist 0
      (resize d.state_data.active_rigid blist.length 0) i hi
      (by rw [resize_length]; omega)
    simpa using this
  · have := setFrom_at (fun b : ChBody R => boolToChar b.collide) blist 0
      (resize d.state_data.collide_rigid blist.length 0) i hi
      (by rw [resize_length]; omega)
    simpa using this

/-- `Synchronize_copies_bodies` at the second body of a two-body list, over a database whose
body arrays are stale. -/
theorem Synchronize_copies_bodies_witness :
    1 < [Examples.body, Examples.ghostBody].length ∧
    (Synchronize ⟨0, 0, 0⟩ ⟨0, 0, 0, 0⟩ [Examples.body, Examples.ghostBody]
        Examples.twoShapes).state_data.num_rigid_bodies = 2 ∧
    (Synchronize ⟨0, 0, 0⟩ ⟨0, 0, 0, 0⟩ [Examples.body, Examples.ghostBody]
        Examples.twoShapes).state_data.pos_rigid[1]? = some ⟨4, 5, 6⟩ ∧
    (Synchronize ⟨0, 0, 0⟩ ⟨0, 0, 0, 0⟩ [Examples.body, Examples.ghostBody]
        Examples.twoShapes).state_data.rot_rigid[1]? = some ⟨1, 0, 0, 0⟩ ∧
    (Synchronize ⟨0, 0, 0⟩ ⟨0, 0, 0, 0⟩ [Examples.body, Examples.ghostBody]
        Examples.twoShapes).state_data.active_rigid[1]? = some 1 ∧
    (Synchronize ⟨0, 0, 0⟩ ⟨0, 0, 0, 0⟩ [Examples.body, Examples.ghostBody]
        Examples.twoShapes).state_data.collide_rigid[1]? = some 0 :=
  ⟨by decide,
    (Synchronize_copies_bodies ⟨0, 0, 0⟩ ⟨0, 0, 0, 0⟩ [Examples.body, Examples.ghostBody]
      Examples.twoShapes).1,
    (Synchronize_copies_bodies ⟨0, 0, 0⟩ ⟨0, 0, 0, 0⟩ [Examples.body, Examples.ghostBody]
      Examples.twoShapes).2 1 (by decide)⟩

/-! ## `GetOverlappingPairs` -/

theorem toInt32_of_range (a : Int) (h0 : 0 ≤ a) (h1 : a < 2 ^ 31) : toInt32 a = a := by
  unfold toInt32
  omega

theorem unpackPair_pack (a b : Int) (ha0 : 0 ≤ a) (ha1 : a < 2 ^ 31) (hb0 : 0 ≤ b)
    (hb1 : b < 2 ^ 31) : unpackPair (a * 2 ^ 32 + b) = I2 a b := by
  have h1 : (a * 2 ^ 32 + b) / 2 ^ 32 = a := by omega
  have h2 : (a * 2 ^ 32 + b) % 2 ^ 32 = b := by omega
  simp only [unpackPair, h1, h2, toInt32_of_range a ha0 ha1, toInt32_of_range b hb0 hb1]


/-- C10: for every packed candidate-pair list, `GetOverlappingPairs` returns a list of the
same length whose entry at each position is the unpacking of the key at that position; the
key `a * 2^32 + b` with `0 <= a, b < 2^31` is unpacked to exactly the pair `(a, b)`, so where
the list holds that key the result holds `(a, b)`. -/
theorem GetOverlappingPairs_unpacks {R : Type} (d : ChCollisionData R) :
    (GetOverlappingPairs d).length = d.host_data.pair_shapeIDs.length ∧
    (∀ j : Nat,
      (GetOverlappingPairs d)[j]? = (d.host_data.pair_shapeIDs[j]?).map unpackPair) ∧
    (∀ a b : Int, 0 ≤ a → a < 2 ^ 31 → 0 ≤ b → b < 2 ^ 31 →
      unpackPair (a * 2 ^ 32 + b) = { x := a, y := b }) ∧
    (∀ (i : Nat) (a b : Int), 0 ≤ a → a < 2 ^ 31 → 0 ≤ b → b < 2 ^ 31 →
      d.host_data.pair_shapeIDs[i]? = some (a * 2 ^ 32 + b) →
      (GetOverlappingPairs d)[i]? = some { x := a, y := b }) := by
  refine ⟨by simp [GetOverlappingPairs], fun j => by simp [GetOverlappingPairs], ?_, ?_⟩
  · intro a b ha0 ha1 hb0 hb1
    rw [unpackPair_pack a b ha0 ha1 hb0 hb1, I2]
  · intro i a b ha0 ha1 hb0 hb1 hkey
    simp only [GetOverlappingPairs, List.getElem?_map, hkey, Option.map_some',
      unpackPair_pack a b ha0 ha1 hb0 hb1, I2]

/-- `GetOverlappingPairs_unpacks` on `pairData`: two keys give two pairs, the first key, the
packed pair `(3, 5)`, gives `(3, 5)`. -/
theorem GetOverlappingPairs_unpacks_witness :
    Examples.pairData.host_data.pair_shapeIDs[0]? = some (3 * 2 ^ 32 + 5) ∧
    (GetOverlappingPairs Examples.pairData).length = 2 ∧
    unpackPair (3 * 2 ^ 32 + 5) = { x := 3, y := 5 } ∧
    (GetOverlappingPairs Examples.pairData)[0]? = some { x := 3, y := 5 } :=
  ⟨rfl,
    (GetOverlappingPairs_unpacks Examples.pairData).1,
    (GetOverlappingPairs_unpacks Examples.pairData).2.2.1 3 5 (by decide) (by decide)
      (by decide) (by decide),
    (GetOverlappingPairs_unpacks Examples.pairData).2.2.2 0 3 5 (by decide) (by decide)
      (by decide) (by decide) rfl⟩

/-! ## `GetOverlappingAABB` and `Run` -/


theorem Run.filterBody_spec {R : Type} (ba : List Int) (sd : state_container R) (n : Nat)
    (ha : sd.active_rigid.length = n) (hc : sd.collide_rigid.length = n) (hb : ba.length = n)
    (i : Nat) (hi : i < n) :
    ∃ act, Run.filterBody ba sd i = some { sd with active_rigid := act } ∧ act.length = n ∧
      (∀ j, j ≠ i → act[j]? = sd.active_rigid[j]?) ∧
      ((sd.active_rigid[i]? = some 0 ∨ sd.collide_rigid[i]? = some 0) →
        act[i]? = sd.active_rigid[i]?) ∧
      (∀ a c, sd.active_rigid[i]? = some a → sd.collide_rigid[i]? = some c → a ≠ 0 → c ≠ 0 →
        act[i]? = ba[i]?) := by
  have h1 : i < sd.active_rigid.length := by omega
  have h2 : i < sd.collide_rigid.length := by omega
  have h3 : i < ba.length := by omega
  simp only [Run.filterBody, List.getElem?_eq_getElem h1, List.getElem?_eq_getElem h2,
    List.getElem?_eq_getElem h3, Option.bind_eq_bind, Option.some_bind]
  by_cases hA : sd.active_rigid[i] = 0
  · refine ⟨sd.active_rigid, by simp [hA], ha, fun _ _ => rfl, fun _ => List.getElem?_eq_getElem h1, ?_⟩
    intro a c e1 _ ha0 _
    simp [hA] at e1
    exact absurd e1.symm ha0
  · by_cases hC : sd.collide_rigid[i] = 0
    · refine ⟨sd.active_rigid, by simp [hA, hC], ha, fun _ _ => rfl, fun _ => List.getElem?_eq_getElem h1, ?_⟩
      intro a c _ e2 _ hc0
      simp [hC] at e2
      exact absurd e2.symm hc0
    · refine ⟨sd.active_rigid.set i ba[i], by simp [hA, hC], by simp [ha], ?_, ?_, ?_⟩
      · intro j hj
        rw [List.getElem?_set_ne (Ne.symm hj)]
      · rintro (h | h)
        · simp at h; exact absurd h hA
        · simp at h; exact absurd h hC
      · intro a c _ _ _ _
        simp [h1]

theorem Run.filterLoop_spec {R : Type} (ba : List Int) (sd : state_container R) (n : Nat)
    (ha : sd.active_rigid.length = n) (hc : sd.collide_rigid.length = n) (hb : ba.length = n)
    (k : Nat) (hk : k ≤ n) :
    ∃ act, (List.range k).foldlM (Run.filterBody ba) sd = some { sd with active_rigid := act } ∧
      act.length = n ∧
      (∀ j, (k ≤ j ∨ sd.active_rigid[j]? = some 0 ∨ sd.collide_rigid[j]? = some 0) →
        act[j]? = sd.active_rigid[j]?) ∧
      (∀ j a c, j < k → sd.active_rigid[j]? = some a → sd.collide_rigid[j]? = some c →
        a ≠ 0 → c ≠ 0 → act[j]? = ba[j]?) := by
  induction k with
  | zero => exact ⟨sd.active_rigid, rfl, ha, fun _ _ => rfl, fun j a c h => by omega⟩
  | succ k ih =>
      obtain ⟨act, hrun, hlen, hkeep, hset⟩ := ih (by omega)
      obtain ⟨act', hstep, hlen', hne, hkeep', hset'⟩ :=
        Run.filterBody_spec ba { sd with active_rigid := act } n hlen hc hb k (by omega)
      have hk0 : act[k]? = sd.active_rigid[k]? := hkeep k (Or.inl (Nat.le_refl k))
      refine ⟨act', ?_, hlen', ?_, ?_⟩
      · rw [List.range_succ, List.foldlM_append, hrun]
        simpa using hstep
      · intro j hj
        by_cases hjk : j = k
        · subst hjk
          rcases hj with hj | hj | hj
          · omega
          · rw [hkeep' (Or.inl (by simpa [hk0] using hj)), hk0]
          · rw [hkeep' (Or.inr hj), hk0]
        · rw [hne j hjk]
          apply hkeep
          rcases hj with hj | hj | hj
          · exact Or.inl (by omega)
          · exact Or.inr (Or.inl hj)
          · exact Or.inr (Or.inr hj)
      · intro j a c hj e1 e2 ha0 hc0
        by_cases hjk : j = k
        · subst hjk
          exact hset' a c (by simpa [hk0] using e1) e2 ha0 hc0
        · rw [hne j hjk]
          exact hset j a c (by omega) e1 e2 ha0 hc0

theorem inContact_iff {R : Type} [RealArith R] (Amin Amax Bmin Bmax : real3 R) :
    inContact Amin Amax Bmin Bmax = true ↔ Overlaps Amin Amax Bmin Bmax := by
  simp [inContact, Overlaps, and_assoc]

theorem flagSet_set {flags : List Int} {j : Nat} (hj : j < flags.length) (b : Nat) :
    flagSet (flags.set j 1) b ↔ flagSet flags b ∨ b = j := by
  unfold flagSet
  by_cases hb : b = j
  · subst hb
    simp [hj]
  · rw [List.getElem?_set_ne (Ne.symm hb)]
    simp [hb]

theorem GetOverlappingAABB.body_spec {R : Type} [RealArith R] (d : ChCollisionData R)
    (Amin Amax : real3 R) (n i : Nat) (hi : i < d.shape_data.typ_rigid.length)
    (hv : ShapesValid d n) (acc : List Int) (hacc : acc.length = n) :
    ∃ acc', GetOverlappingAABB.body d Amin Amax acc i = some acc' ∧ acc'.length = n ∧
      ∀ b, flagSet acc' b ↔ flagSet acc b ∨ ShapeHits d Amin Amax b i := by
  obtain ⟨h1, h2, id, hid, hid0, hidn⟩ := hv i hi
  simp only [GetOverlappingAABB.body, List.getElem?_eq_getElem h1, List.getElem?_eq_getElem h2,
    Option.bind_eq_bind, Option.some_bind, hid]
  by_cases hc : inContact Amin Amax d.host_data.aabb_min[i] d.host_data.aabb_max[i] = true
  · have hw : writeAt acc id 1 = some (acc.set id.toNat 1) := by
      simp [writeAt, hid0, hacc, hidn]
    simp only [hc, if_true, hw]
    refine ⟨_, rfl, by simp [hacc], fun b => ?_⟩
    rw [flagSet_set (by omega)]
    have hov := (inContact_iff _ _ _ _).1 hc
    constructor
    · rintro (h | h)
      · exact Or.inl h
      · refine Or.inr ⟨_, _, List.getElem?_eq_getElem h1, List.getElem?_eq_getElem h2, ?_, hov⟩
        rw [hid, h, Int.toNat_of_nonneg hid0]
    · rintro (h | ⟨Bmin, Bmax, _, _, h3, _⟩)
      · exact Or.inl h
      · right
        rw [hid] at h3
        have : id = (b : Int) := by simpa using h3
        omega
  · simp only [hc]
    refine ⟨acc, by simp, hacc, fun b => ?_⟩
    constructor
    · exact Or.inl
    · rintro (h | ⟨Bmin, Bmax, e1, e2, _, hov⟩)
      · exact h
      · exfalso
        apply hc
        rw [List.getElem?_eq_getElem h1] at e1
        rw [List.getElem?_eq_getElem h2] at e2
        have e1 : d.host_data.aabb_min[i] = Bmin := by simpa using e1
        have e2 : d.host_data.aabb_max[i] = Bmax := by simpa using e2
        rw [e1, e2]
        exact (inContact_iff _ _ _ _).2 hov

theorem GetOverlappingAABB.loop_spec {R : Type} [RealArith R] (d : ChCollisionData R)
    (Amin Amax : real3 R) (n : Nat) (hv : ShapesValid d n) (flags : List Int)
    (hflags : flags.length = n) (k : Nat) (hk : k ≤ d.shape_data.typ_rigid.length) :
    ∃ acc, (List.range k).foldlM (GetOverlappingAABB.body d Amin Amax) flags = some acc ∧
      acc.length = n ∧
      ∀ b, flagSet acc b ↔ flagSet flags b ∨ ∃ i, i < k ∧ ShapeHits d Amin Amax b i := by
  induction k with
  | zero => exact ⟨flags, rfl, hflags, fun b => by simp⟩
  | succ k ih =>
      obtain ⟨acc, hrun, hlen, hacc⟩ := ih (by omega)
      obtain ⟨acc', hstep, hlen', hacc'⟩ :=
        GetOverlappingAABB.body_spec d Amin Amax n k (by omega) hv acc hlen
      refine ⟨acc', ?_, hlen', fun b => ?_⟩
      · rw [List.range_succ, List.foldlM_append, hrun]
        simp [hstep]
      · rw [hacc', hacc]
        constructor
        · rintro ((h | ⟨i, hi, h⟩) | h)
          · exact Or.inl h
          · exact Or.inr ⟨i, by omega, h⟩
          · exact Or.inr ⟨k, by omega, h⟩
        · rintro (h | ⟨i, hi, h⟩)
          · exact Or.inl (Or.inl h)
          · by_cases hik : i = k
            · subst hik; exact Or.inr h
            · exact Or.inl (Or.inr ⟨i, by omega, h⟩)

theorem GetOverlappingAABB_spec {R : Type} [RealArith R] (st : Stages R)
    (s : CollisionSystem R) (flags : List Int) (Amin Amax : real3 R)
    (hv : ShapesValid (st.GenerateAABB s.narrowphase.envelope s.data_manager) flags.length) :
    ∃ flags', GetOverlappingAABB st s flags Amin Amax =
        some ({ s with data_manager := st.GenerateAABB s.narrowphase.envelope s.data_manager },
          flags') ∧
      flags'.length = flags.length ∧
      ∀ b, flagSet flags' b ↔
        flagSet flags b ∨
          ∃ i, i < (st.GenerateAABB s.narrowphase.envelope
                s.data_manager).shape_data.typ_rigid.length ∧
            ShapeHits (st.GenerateAABB s.narrowphase.envelope s.data_manager) Amin Amax b i := by
  obtain ⟨acc, hrun, hlen, hacc⟩ :=
    GetOverlappingAABB.loop_spec (st.GenerateAABB s.narrowphase.envelope s.data_manager)
      Amin Amax flags.length hv flags rfl _ (Nat.le_refl _)
  exact ⟨acc, by simp [GetOverlappingAABB, hrun], hlen, hacc⟩


theorem SameInputs.trans {R : Type} {a b c : ChCollisionData R} (h1 : SameInputs a b)
    (h2 : SameInputs b c) : SameInputs a c :=
  ⟨h1.1.trans h2.1, h1.2.1.trans h2.2.1, h1.2.2.trans h2.2.2⟩

/-- With stages that leave the inputs alone, `Run.pipeline` returns the body state it was
given, and from a shape count of zero it ends in the branch that clears the rigid/fluid
contact counts. -/
theorem Run.pipeline_inputs {R : Type} (st : Stages R) (hst : st.ReadOnlyInputs)
    (s : CollisionSystem R) :
    (Run.pipeline st s).data_manager.state_data = s.data_manager.state_data ∧
    (s.data_manager.num_rigid_shapes = 0 →
      (Run.pipeline st s).data_manager.host_data.c_counts_rigid_fluid = [] ∧
      (Run.pipeline st s).data_manager.num_rigid_fluid_contacts = 0) := by
  have hg := hst.GenerateAABB s.narrowphase.envelope s.data_manager
  have h1 := (hst.DetermineBoundingBox
    (s.broadphase, st.GenerateAABB s.narrowphase.envelope s.data_manager)).trans hg
  have h2 := (hst.OffsetAABB _).trans h1
  have h3 := (hst.ComputeTopLevelResolution _).trans h2
  have h4 := (hst.DispatchRigid _).trans h3
  simp only [Run.pipeline]
  generalize st.DispatchRigid _ = p at h4 ⊢
  have h5 : SameInputs
      (if p.2.state_data.num_fluid_bodies ≠ 0 then st.DispatchFluid (s.narrowphase, p.2)
        else (s.narrowphase, p.2)).2 s.data_manager := by
    split
    · exact (hst.DispatchFluid _).trans h4
    · exact h4
  generalize (if p.2.state_data.num_fluid_bodies ≠ 0 then st.DispatchFluid (s.narrowphase, p.2)
        else (s.narrowphase, p.2)) = q at h5 ⊢
  constructor
  · split
    · exact ((hst.ProcessRigids _ _).trans h5).2.1
    · exact h5.2.1
  · intro h0
    have hq : q.2.num_rigid_shapes = 0 := by rw [h5.2.2, h0]
    simp [hq]

theorem Run.activeFilter_spec {R : Type} [RealArith R] (st : Stages R)
    (hst : st.ReadOnlyInputs) (s : CollisionSystem R) (hr : FilterReady st s) :
    ∃ act flags : List Int,
      Run.activeFilter st s =
        some { s with
          data_manager :=
            { st.GenerateAABB s.narrowphase.envelope s.data_manager with
              state_data := { s.data_manager.state_data with active_rigid := act } }
          body_active := flags } ∧
      act.length = s.data_manager.state_data.num_rigid_bodies ∧
      (∀ j : Nat, (s.data_manager.state_data.active_rigid[j]? = some 0 ∨
            s.data_manager.state_data.collide_rigid[j]? = some 0) →
        act[j]? = s.data_manager.state_data.active_rigid[j]?) ∧
      (∀ (j : Nat) (a c : Int), s.data_manager.state_data.active_rigid[j]? = some a →
        s.data_manager.state_data.collide_rigid[j]? = some c → a ≠ 0 → c ≠ 0 →
        (flagSet act j ↔
          ∃ i, i < (st.GenerateAABB s.narrowphase.envelope
                s.data_manager).shape_data.typ_rigid.length ∧
            ShapeHits (st.GenerateAABB s.narrowphase.envelope s.data_manager)
              s.aabb_min s.aabb_max j i)) := by
  obtain ⟨ha, hc, hv⟩ := hr
  have hsd := (hst.GenerateAABB s.narrowphase.envelope s.data_manager).2.1
  have hlen0 : (List.replicate
      (resize s.body_active s.data_manager.state_data.num_rigid_bodies 0).length (0 : Int)).length
      = s.data_manager.state_data.num_rigid_bodies := by
    rw [List.length_replicate, resize_length]
  obtain ⟨flags, hget, hflen, hflags⟩ :=
    GetOverlappingAABB_spec st s
      (List.replicate
        (resize s.body_active s.data_manager.state_data.num_rigid_bodies 0).length (0 : Int))
      s.aabb_min s.aabb_max (by rw [hlen0]; exact hv)
  obtain ⟨act, hrun, hlen, hkeep, hset⟩ :=
    Run.filterLoop_spec flags s.data_manager.state_data
      s.data_manager.state_data.num_rigid_bodies ha hc (by rw [hflen, hlen0])
      s.data_manager.state_data.num_rigid_bodies (Nat.le_refl _)
  refine ⟨act, flags, ?_, hlen, fun (j : Nat) hj => hkeep j (Or.inr hj), ?_⟩
  · simp only [Run.activeFilter, hget, Option.bind_eq_bind, Option.some_bind, hsd, ha, hrun]
    rfl
  · intro j a c e1 e2 ha0 hc0
    have hj : j < s.data_manager.state_data.num_rigid_bodies := by
      rw [← ha]
      exact (List.getElem?_eq_some.1 e1).1
    have hact : act[j]? = flags[j]? := hset j a c hj e1 e2 ha0 hc0
    have h0 : ¬ flagSet (List.replicate
        (resize s.body_active s.data_manager.state_data.num_rigid_bodies 0).length (0 : Int)) j := by
      rintro ⟨x, hx, hx0⟩
      rw [List.getElem?_replicate] at hx
      split at hx
      · exact hx0 (by simpa using hx.symm)
      · exact absurd hx (by simp)
    have : flagSet act j ↔ flagSet flags j := by simp [flagSet, hact]
    rw [this, hflags j]
    simp [h0]


/-- Clearing the contact state leaves the inputs of the pipeline alone. -/
theorem clearContactState_inputs {R : Type} (d : ChCollisionData R) :
    SameInputs (clearContactState d) d :=
  ⟨rfl, rfl, rfl⟩

theorem noopStages.onData_inputs {R : Type} (d : ChCollisionData R) :
    SameInputs (noopStages.onData d) d := by
  unfold noopStages.onData
  split
  · exact clearContactState_inputs d
  · exact ⟨rfl, rfl, rfl⟩

/-- The stages of `noopStages` write at most the contact state, so they leave the inputs of
the pipeline alone. -/
theorem noopStages_readOnly (R : Type) : (noopStages R).ReadOnlyInputs :=
  { GenerateAABB := fun _ d => noopStages.onData_inputs d
    DetermineBoundingBox := fun p => noopStages.onData_inputs p.2
    OffsetAABB := fun p => noopStages.onData_inputs p.2
    ComputeTopLevelResolution := fun p => noopStages.onData_inputs p.2
    DispatchRigid := fun p => noopStages.onData_inputs p.2
    DispatchFluid := fun p => noopStages.onData_inputs p.2
    ProcessRigids := fun _ p => noopStages.onData_inputs p.2 }

theorem Examples.twoShapes_valid : ShapesValid Examples.twoShapes 2 := by
  intro i hi
  have hi2 : i = 0 ∨ i = 1 := by
    have : i < 2 := hi
    omega
  rcases hi2 with rfl | rfl
  · exact ⟨by decide, by decide, 0, rfl, by decide, by decide⟩
  · exact ⟨by decide, by decide, 1, rfl, by decide, by decide⟩

theorem Examples.boxSystem_ready : FilterReady (noopStages Int) Examples.boxSystem :=
  ⟨rfl, rfl, Examples.twoShapes_valid⟩

/-- C9: when every shape has a generated AABB and an owner id that indexes the flag array,
`GetOverlappingAABB` completes, keeps the length of the flag array, and afterwards the flag
of body `b` is set if and only if it was set before the call or some shape owned by `b` has a
generated AABB `[Bmin, Bmax]` with `Amin <= Bmax` and `Bmin <= Amax` on all three axes; in
particular no set flag is cleared. -/
theorem GetOverlappingAABB_marks_owners {R : Type} [RealArith R] (st : Stages R)
    (s : CollisionSystem R) (flags : List Int) (Amin Amax : real3 R)
    (hv : ShapesValid (st.GenerateAABB s.narrowphase.envelope s.data_manager) flags.length) :
    ∃ flags', GetOverlappingAABB st s flags Amin Amax =
        some ({ s with data_manager := st.GenerateAABB s.narrowphase.envelope s.data_manager },
          flags') ∧
      flags'.length = flags.length ∧
      (∀ b, flagSet flags' b ↔
        flagSet flags b ∨
          ∃ i, i < (st.GenerateAABB s.narrowphase.envelope
                s.data_manager).shape_data.typ_rigid.length ∧
            ShapeHits (st.GenerateAABB s.narrowphase.envelope s.data_manager) Amin Amax b i) ∧
      (∀ b, flagSet flags b → flagSet flags' b) := by
  obtain ⟨flags', hrun, hlen, hiff⟩ := GetOverlappingAABB_spec st s flags Amin Amax hv
  exact ⟨flags', hrun, hlen, hiff, fun b hb => (hiff b).2 (Or.inl hb)⟩

/-- `GetOverlappingAABB_marks_owners` on the two-shape database with the query box `[0,2]^3`
and the flags `[0, 3]`. -/
theorem GetOverlappingAABB_marks_owners_witness :
    ShapesValid Examples.twoShapes [0, 3].length ∧
    ∃ flags', GetOverlappingAABB (noopStages Int) Examples.boxSystem [0, 3] ⟨0, 0, 0⟩
          ⟨2, 2, 2⟩ = some (Examples.boxSystem, flags') ∧
      flags'.length = [0, 3].length ∧
      (∀ b, flagSet flags' b ↔
        flagSet [0, 3] b ∨
          ∃ i, i < Examples.twoShapes.shape_data.typ_rigid.length ∧
            ShapeHits Examples.twoShapes ⟨0, 0, 0⟩ ⟨2, 2, 2⟩ b i) ∧
      (∀ b, flagSet [0, 3] b → flagSet flags' b) :=
  ⟨Examples.twoShapes_valid,
    GetOverlappingAABB_marks_owners (noopStages Int) Examples.boxSystem [0, 3] ⟨0, 0, 0⟩
      ⟨2, 2, 2⟩ Examples.twoShapes_valid⟩

/-- With the active box enabled and no shapes at all, `Run` leaves the flag of a body that is
active but does not collide set. -/
theorem Run_active_box_noncollidable_stays_set :
    Examples.staleSystem.use_aabb_active = true ∧
    Examples.staleSystem.data_manager.state_data.active_rigid = [1] ∧
    Examples.staleSystem.data_manager.state_data.collide_rigid = [0] ∧
    Examples.staleSystem.data_manager.shape_data.typ_rigid = [] ∧
    (Run (noopStages Int) Examples.staleSystem).map
      (fun s => s.data_manager.state_data.active_rigid) = some [1] := by
  decide

/-- C5, amended: with the active box enabled, one entry per rigid body in the active and
collide arrays, and every shape owning an AABB and a valid owner id, `Run` completes, keeps
the length of the active array, and afterwards: a body that was active and collidable before
the call has its flag set if and only if at least one of its shapes' AABBs overlaps the
configured box; the flag of a body that was inactive or not collidable is left as it was. -/
theorem Run_active_box_flags {R : Type} [RealArith R] (st : Stages R)
    (hst : st.ReadOnlyInputs) (s : CollisionSystem R) (hbox : s.use_aabb_active = true)
    (hr : FilterReady st s) :
    ∃ s', Run st s = some s' ∧
      s'.data_manager.state_data.active_rigid.length =
        s.data_manager.state_data.num_rigid_bodies ∧
      (∀ (j : Nat) (a c : Int), s.data_manager.state_data.active_rigid[j]? = some a →
        s.data_manager.state_data.collide_rigid[j]? = some c → a ≠ 0 → c ≠ 0 →
        (flagSet s'.data_manager.state_data.active_rigid j ↔
          ∃ i, i < (st.GenerateAABB s.narrowphase.envelope
                s.data_manager).shape_data.typ_rigid.length ∧
            ShapeHits (st.GenerateAABB s.narrowphase.envelope s.data_manager)
              s.aabb_min s.aabb_max j i)) ∧
      (∀ j : Nat, (s.data_manager.state_data.active_rigid[j]? = some 0 ∨
            s.data_manager.state_data.collide_rigid[j]? = some 0) →
        s'.data_manager.state_data.active_rigid[j]? =
          s.data_manager.state_data.active_rigid[j]?) := by
  obtain ⟨act, flags, hrun, hlen, hkeep, hset⟩ := Run.activeFilter_spec st hst s hr
  refine ⟨_, by simp only [Run, hbox, if_true, hrun, Option.bind_eq_bind, Option.some_bind]; rfl,
    ?_, ?_, ?_⟩
  · rw [(Run.pipeline_inputs st hst _).1]
    exact hlen
  · intro j a c e1 e2 ha0 hc0
    rw [(Run.pipeline_inputs st hst _).1]
    exact hset j a c e1 e2 ha0 hc0
  · intro j hj
    rw [(Run.pipeline_inputs st hst _).1]
    exact hkeep j hj

/-- `Run_active_box_flags` on the two-shape system with the box `[0,2]^3`. -/
theorem Run_active_box_flags_witness :
    Examples.boxSystem.use_aabb_active = true ∧
    FilterReady (noopStages Int) Examples.boxSystem ∧
    ∃ s', Run (noopStages Int) Examples.boxSystem = some s' ∧
      s'.data_manager.state_data.active_rigid.length =
        Examples.boxSystem.data_manager.state_data.num_rigid_bodies ∧
      (∀ (j : Nat) (a c : Int),
        Examples.boxSystem.data_manager.state_data.active_rigid[j]? = some a →
        Examples.boxSystem.data_manager.state_data.collide_rigid[j]? = some c →
        a ≠ 0 → c ≠ 0 →
        (flagSet s'.data_manager.state_data.active_rigid j ↔
          ∃ i, i < ((noopStages Int).GenerateAABB Examples.boxSystem.narrowphase.envelope
                Examples.boxSystem.data_manager).shape_data.typ_rigid.length ∧
            ShapeHits ((noopStages Int).GenerateAABB Examples.boxSystem.narrowphase.envelope
                Examples.boxSystem.data_manager)
              Examples.boxSystem.aabb_min Examples.boxSystem.aabb_max j i)) ∧
      (∀ j : Nat, (Examples.boxSystem.data_manager.state_data.active_rigid[j]? = some 0 ∨
            Examples.boxSystem.data_manager.state_data.collide_rigid[j]? = some 0) →
        s'.data_manager.state_data.active_rigid[j]? =
          Examples.boxSystem.data_manager.state_data.active_rigid[j]?) :=
  ⟨rfl, Examples.boxSystem_ready,
    Run_active_box_flags (noopStages Int) (noopStages_readOnly Int) Examples.boxSystem rfl
      Examples.boxSystem_ready⟩

/-- The switch of `Add` appends the three vertices of a triangle to the triangle pool, and
leaves the pool alone for every other kind. -/
theorem Add.switch_triangle_pool {R : Type} [RealArith R] (sd : shape_container R) (off : Int)
    (shape : ChCollisionShapeChrono R) :
    (Add.switch sd off shape).1.triangle_rigid =
      sd.triangle_rigid ++
        (if shape.type = .TRIANGLE then [shape.A, shape.B, shape.C] else []) := by
  unfold Add.switch
  split <;> simp_all

/-- The values of `start` and `length` after the switch, for a triangle. -/
theorem Add.switch_triangle {R : Type} [RealArith R] (sd : shape_container R) (off : Int)
    (shape : ChCollisionShapeChrono R) (ht : shape.type = .TRIANGLE) :
    (Add.switch sd off shape).2 = ((sd.triangle_rigid.length : Int), 1) := by
  unfold Add.switch
  simp [ht]

/-- Each iteration of the loop of `Add` extends the start, length and kind arrays and the
triangle pool of the local container at the end. -/
theorem Add.foldl_extends {R : Type} [RealArith R] (body_id : Int) (fam : short2) (off : Int)
    (shapes : List (ChCollisionShapeChrono R)) (st : Add.LoopState R) :
    ∃ (e1 e2 : List Int) (e3 : List ShapeType) (e4 : List (real3 R)),
      (shapes.foldl (Add.step body_id fam off) st).shape_data.start_rigid =
        st.shape_data.start_rigid ++ e1 ∧
      (shapes.foldl (Add.step body_id fam off) st).shape_data.length_rigid =
        st.shape_data.length_rigid ++ e2 ∧
      (shapes.foldl (Add.step body_id fam off) st).shape_data.typ_rigid =
        st.shape_data.typ_rigid ++ e3 ∧
      (shapes.foldl (Add.step body_id fam off) st).shape_data.triangle_rigid =
        st.shape_data.triangle_rigid ++ e4 := by
  induction shapes generalizing st with
  | nil => exact ⟨[], [], [], [], by simp⟩
  | cons s rest ih =>
      obtain ⟨e1, e2, e3, e4, h1, h2, h3, h4⟩ := ih (Add.step body_id fam off st s)
      obtain ⟨-, -, p3, p4, -, p6, -, -⟩ := Add.switch_per_shape st.shape_data off s
      refine ⟨(Add.switch st.shape_data off s).2.1 :: e1,
        (Add.switch st.shape_data off s).2.2 :: e2, s.type :: e3,
        (if s.type = .TRIANGLE then [s.A, s.B, s.C] else []) ++ e4, ?_, ?_, ?_, ?_⟩
      · rw [List.foldl_cons, h1]; simp [Add.step, p3]
      · rw [List.foldl_cons, h2]; simp [Add.step, p4]
      · rw [List.foldl_cons, h3]; simp [Add.step, p6]
      · rw [List.foldl_cons, h4]
        simp [Add.step, Add.switch_triangle_pool]

theorem Add.step_triangle {R : Type} [RealArith R] (body_id : Int) (fam : short2) (off : Int)
    (st : Add.LoopState R) (tri : ChCollisionShapeChrono R) (ht : tri.type = .TRIANGLE) :
    (Add.step body_id fam off st tri).shape_data.start_rigid =
        st.shape_data.start_rigid ++ [(st.shape_data.triangle_rigid.length : Int)] ∧
    (Add.step body_id fam off st tri).shape_data.length_rigid =
        st.shape_data.length_rigid ++ [1] ∧
    (Add.step body_id fam off st tri).shape_data.typ_rigid =
        st.shape_data.typ_rigid ++ [.TRIANGLE] ∧
    (Add.step body_id fam off st tri).shape_data.triangle_rigid =
        st.shape_data.triangle_rigid ++ [tri.A, tri.B, tri.C] := by
  obtain ⟨-, -, p3, p4, -, p6, -, -⟩ := Add.switch_per_shape st.shape_data off tri
  have hp := Add.switch_triangle_pool st.shape_data off tri
  have hs := Add.switch_triangle st.shape_data off tri ht
  simp only [ht, if_true] at hp
  refine ⟨?_, ?_, ?_, ?_⟩
  · simp [Add.step, p3, hs]
  · simp [Add.step, p4, hs]
  · simp [Add.step, p6, ht]
  · simp [Add.step, hp]

theorem getElem?_append_at {α : Type} (xs : List α) (x : α) (ys : List α) (n : Nat)
    (hn : n = xs.length) : (xs ++ x :: ys)[n]? = some x := by
  subst hn
  rw [List.getElem?_append_right (Nat.le_refl _)]
  simp

/-- The record that the loop of `Add` builds for a triangle that follows the shapes `pre`:
its kind, `start` and `length` entries, and the three vertices in the triangle pool. -/
theorem Add.foldl_triangle {R : Type} [RealArith R] (body_id : Int) (fam : short2) (off : Int)
    (pre post : List (ChCollisionShapeChrono R)) (tri : ChCollisionShapeChrono R)
    (init : Add.LoopState R) (ht : tri.type = .TRIANGLE) :
    ((pre ++ tri :: post).foldl (Add.step body_id fam off) init).shape_data.typ_rigid[
        init.shape_data.typ_rigid.length + pre.length]? = some .TRIANGLE ∧
    ((pre ++ tri :: post).foldl (Add.step body_id fam off) init).shape_data.start_rigid[
        init.shape_data.start_rigid.length + pre.length]? =
      some ((pre.foldl (Add.step body_id fam off) init).shape_data.triangle_rigid.length : Int) ∧
    ((pre ++ tri :: post).foldl (Add.step body_id fam off) init).shape_data.length_rigid[
        init.shape_data.length_rigid.length + pre.length]? = some 1 ∧
    ((pre ++ tri :: post).foldl (Add.step body_id fam off) init).shape_data.triangle_rigid[
        (pre.foldl (Add.step body_id fam off) init).shape_data.triangle_rigid.length]? =
      some tri.A ∧
    ((pre ++ tri :: post).foldl (Add.step body_id fam off) init).shape_data.triangle_rigid[
        (pre.foldl (Add.step body_id fam off) init).shape_data.triangle_rigid.length + 1]? =
      some tri.B ∧
    ((pre ++ tri :: post).foldl (Add.step body_id fam off) init).shape_data.triangle_rigid[
        (pre.foldl (Add.step body_id fam off) init).shape_data.triangle_rigid.length + 2]? =
      some tri.C := by
  obtain ⟨-, -, l3, l4, -, l6, -, -⟩ := Add.foldl_local body_id fam off pre init
  have l6 := congrArg List.length l6
  rw [List.length_append, List.length_map] at l6
  rw [List.foldl_append, List.foldl_cons]
  generalize pre.foldl (Add.step body_id fam off) init = S at l3 l4 l6 ⊢
  obtain ⟨t1, t2, t3, t4⟩ := Add.step_triangle body_id fam off S tri ht
  obtain ⟨e1, e2, e3, e4, h1, h2, h3, h4⟩ :=
    Add.foldl_extends body_id fam off post (Add.step body_id fam off S tri)
  rw [h1, h2, h3, h4, t1, t2, t3, t4]
  simp only [List.append_assoc, List.singleton_append, List.cons_append, List.nil_append]
  refine ⟨?_, ?_, ?_, ?_, ?_, ?_⟩
  · exact getElem?_append_at _ _ _ _ l6.symm
  · exact getElem?_append_at _ _ _ _ l3.symm
  · exact getElem?_append_at _ _ _ _ l4.symm
  · exact getElem?_append_at _ _ _ _ rfl
  · rw [List.getElem?_append_right (by omega)]
    simp
  · rw [List.getElem?_append_right (by omega)]
    simp

/-- The triangle pool of the local container grows by three vertices for each triangle. -/
theorem Add.foldl_triangle_pool_length {R : Type} [RealArith R] (body_id : Int) (fam : short2)
    (off : Int) (shapes : List (ChCollisionShapeChrono R)) (st : Add.LoopState R) :
    (shapes.foldl (Add.step body_id fam off) st).shape_data.triangle_rigid.length =
      st.shape_data.triangle_rigid.length +
        3 * shapes.countP (fun s => decide (s.type = .TRIANGLE)) := by
  induction shapes generalizing st with
  | nil => simp
  | cons s rest ih =>
      rw [List.foldl_cons, ih]
      have hp : (Add.step body_id fam off st s).shape_data.triangle_rigid =
          (Add.switch st.shape_data off s).1.triangle_rigid := by
        simp [Add.step]
      rw [hp, Add.switch_triangle_pool, List.countP_cons]
      by_cases ht : s.type = .TRIANGLE
      · simp [ht]; omega
      · simp [ht]

/-- Index alignment holds of the container without shapes. -/
theorem IndexAligned_empty {R : Type} : IndexAligned ({} : shape_container R) := by
  refine ⟨⟨rfl, rfl, rfl, rfl, rfl, rfl, rfl⟩, ?_⟩
  intro i typ start len n h
  simp at h

/-- `Remove` leaves the shape container of the database as it was. -/
theorem Remove_shape_data {R : Type} (d : ChCollisionData R) (m : ChCollisionModelChrono R) :
    (Remove d m).shape_data = d.shape_data := rfl

/-- No sequence of `Add` and `Remove` calls writes the shape container of the database. -/
theorem Reachable.shape_data_eq {R : Type} [RealArith R] {d : ChCollisionData R}
    (h : Reachable d) : d.shape_data = {} := by
  induction h with
  | empty => rfl
  | add d m _ ih => rw [Add_shape_data, ih]
  | remove d m _ ih => rw [Remove_shape_data, ih]


/-- A model of one sphere and two triangles: the record built for the first triangle has
length `1`, not `3`. -/
theorem Add_triangle_length_is_one :
    Examples.triangleModel.body.collide = true ∧
    Examples.triangleModel.shapes[1]? = some Examples.triangle ∧
    Examples.triangle.type = .TRIANGLE ∧
    (Add.local_shape_data Examples.emptyData Examples.triangleModel).typ_rigid[1]? =
      some .TRIANGLE ∧
    (Add.local_shape_data Examples.emptyData Examples.triangleModel).length_rigid[1]? =
      some 1 ∧
    (Add.local_shape_data Examples.emptyData Examples.triangleModel).length_rigid[1]? ≠
      some 3 := by
  decide

/-- C11, amended: for a triangle of a model passed to `Add` (body with `collide = true`),
preceded in the model by the shapes `pre`, the record `Add` builds has kind `TRIANGLE`, `start`
equal to the length of the triangle vertex pool before the triangle's three vertices are
appended (the pool of the database plus three vertices per triangle of `pre`), and `length`
equal to `1`; the three vertices are appended to the pool at `start`, `start + 1` and
`start + 2`. -/
theorem Add_triangle_record {R : Type} [RealArith R] (d : ChCollisionData R)
    (m : ChCollisionModelChrono R) (pre post : List (ChCollisionShapeChrono R))
    (tri : ChCollisionShapeChrono R) (hc : m.body.collide = true)
    (hs : m.shapes = pre ++ tri :: post) (ht : tri.type = .TRIANGLE) :
    (Add.local_shape_data d m).typ_rigid[d.shape_data.typ_rigid.length + pre.length]? =
        some .TRIANGLE ∧
    (Add.local_shape_data d m).start_rigid[d.shape_data.start_rigid.length + pre.length]? =
        some ((Add.local_shape_data d { m with shapes := pre }).triangle_rigid.length : Int) ∧
    (Add.local_shape_data d m).length_rigid[d.shape_data.length_rigid.length + pre.length]? =
        some 1 ∧
    (Add.local_shape_data d m).triangle_rigid[
        (Add.local_shape_data d { m with shapes := pre }).triangle_rigid.length]? =
        some tri.A ∧
    (Add.local_shape_data d m).triangle_rigid[
        (Add.local_shape_data d { m with shapes := pre }).triangle_rigid.length + 1]? =
        some tri.B ∧
    (Add.local_shape_data d m).triangle_rigid[
        (Add.local_shape_data d { m with shapes := pre }).triangle_rigid.length + 2]? =
        some tri.C ∧
    (Add.local_shape_data d { m with shapes := pre }).triangle_rigid.length =
      d.shape_data.triangle_rigid.length +
        3 * pre.countP (fun s => decide (s.type = .TRIANGLE)) := by
  simp only [Add.local_shape_data, hc, Add.run, hs, Bool.not_true, Bool.false_eq_true, if_false]
  obtain ⟨h1, h2, h3, h4, h5, h6⟩ := Add.foldl_triangle m.body.id
    (S2 m.family_group m.family_mask) (d.shape_data.convex_rigid.length : Int) pre post tri
    { shape_data :=
        { d.shape_data with convex_rigid := d.shape_data.convex_rigid ++ m.local_convex_data }
      num_rigid_shapes := d.num_rigid_shapes
      local_shape_index := 0 } ht
  exact ⟨h1, h2, h3, h4, h5, h6, Add.foldl_triangle_pool_length _ _ _ pre _⟩

/-- `Add_triangle_record` at the second triangle of `triangleModel` on the empty database: it
follows a sphere and a triangle, so its `start` is `3`. -/
theorem Add_triangle_record_witness :
    Examples.triangleModel.body.collide = true ∧
    Examples.triangleModel.shapes =
      [Examples.sphere, Examples.triangle] ++ Examples.triangle :: [] ∧
    Examples.triangle.type = .TRIANGLE ∧
    (Add.local_shape_data Examples.emptyData Examples.triangleModel).typ_rigid[
        Examples.emptyData.shape_data.typ_rigid.length +
          [Examples.sphere, Examples.triangle].length]? = some .TRIANGLE ∧
    (Add.local_shape_data Examples.emptyData Examples.triangleModel).start_rigid[
        Examples.emptyData.shape_data.start_rigid.length +
          [Examples.sphere, Examples.triangle].length]? =
      some ((Add.local_shape_data Examples.emptyData
        { Examples.triangleModel with
          shapes := [Examples.sphere, Examples.triangle] }).triangle_rigid.length : Int) ∧
    (Add.local_shape_data Examples.emptyData Examples.triangleModel).length_rigid[
        Examples.emptyData.shape_data.length_rigid.length +
          [Examples.sphere, Examples.triangle].length]? = some 1 ∧
    (Add.local_shape_data Examples.emptyData
        { Examples.triangleModel with
          shapes := [Examples.sphere, Examples.triangle] }).triangle_rigid.length =
      Examples.emptyData.shape_data.triangle_rigid.length +
        3 * [Examples.sphere, Examples.triangle].countP
          (fun s => decide (s.type = .TRIANGLE)) :=
  have h := Add_triangle_record Examples.emptyData Examples.triangleModel
    [Examples.sphere, Examples.triangle] [] Examples.triangle rfl rfl rfl
  ⟨rfl, rfl, rfl, h.1, h.2.1, h.2.2.1, h.2.2.2.2.2.2⟩

/-! ## Index alignment -/

/-- The shape container of every database reachable from the empty database by `Add` and
`Remove` calls is index-aligned: no call writes it, so it holds no record. -/
theorem Reachable_index_aligned {R : Type} [RealArith R] (d : ChCollisionData R)
    (h : Reachable d) : IndexAligned d.shape_data := by
  rw [h.shape_data_eq]
  exact IndexAligned_empty

/-- `Reachable_index_aligned` at the database reached by adding the sphere model and the
triangle model and removing the sphere model again. -/
theorem Reachable_index_aligned_witness :
    Reachable
      (Remove (Add (Add Examples.emptyData Examples.sphereModel) Examples.triangleModel)
        Examples.sphereModel) ∧
    IndexAligned
      (Remove (Add (Add Examples.emptyData Examples.sphereModel) Examples.triangleModel)
        Examples.sphereModel).shape_data :=
  have hr : Reachable
      (Remove (Add (Add Examples.emptyData Examples.sphereModel) Examples.triangleModel)
        Examples.sphereModel) :=
    Reachable.remove _ _ (Reachable.add _ _ (Reachable.add _ _ Reachable.empty))
  ⟨hr, Reachable_index_aligned _ hr⟩

/-- A sequence of `Add` calls raises the counter by the number of shapes of the colliding
models and leaves the shape container alone. -/
theorem foldl_Add {R : Type} [RealArith R] (ms : List (ChCollisionModelChrono R))
    (d : ChCollisionData R) :
    (ms.foldl Add d).shape_data = d.shape_data ∧
    (ms.foldl Add d).num_rigid_shapes = d.num_rigid_shapes + collidingShapes ms := by
  induction ms generalizing d with
  | nil => simp [collidingShapes]
  | cons m rest ih =>
      obtain ⟨h1, h2⟩ := ih (Add d m)
      rw [List.foldl_cons, h1, h2, Add_shape_data]
      refine ⟨rfl, ?_⟩
      by_cases hc : m.body.collide = true
      · simp [Add, hc, Add.run_num, collidingShapes]; omega
      · simp [Add, hc, collidingShapes]

/-- C13: from the empty database, one `Add` of a model with one sphere on a colliding body
leaves the rigid-shape counter at `1` while the kind array, which `GetOverlappingAABB`
iterates over, still has length `0`: the counter is written through `data_manager`, the
record into the local copy of the shape container. -/
theorem AddAll_sphere_counter_exceeds_records :
    Examples.sphereModel.body.collide = true ∧
    (AddAll [Examples.sphereModel]).num_rigid_shapes = 1 ∧
    (AddAll [Examples.sphereModel]).shape_data.typ_rigid.length = 0 ∧
    (AddAll [Examples.sphereModel]).num_rigid_shapes ≠
      (AddAll [Examples.sphereModel]).shape_data.typ_rigid.length := by
  decide

/-- After any sequence of `Add` calls from the empty database the kind array is empty and the
counter is the number of shapes of the colliding models. -/
theorem AddAll_counter {R : Type} [RealArith R] (ms : List (ChCollisionModelChrono R)) :
    (AddAll ms).shape_data.typ_rigid.length = 0 ∧
    (AddAll ms).num_rigid_shapes = collidingShapes ms := by
  obtain ⟨h1, h2⟩ := foldl_Add ms ({} : ChCollisionData R)
  constructor
  · rw [AddAll, h1]; rfl
  · rw [AddAll, h2]; simp

end ChCollisionSystemChrono
